import Mathlib

/-!
# A verification model of `src/promise/src/promise.ts`

This file gives a shallow embedding of the `MyPromise` implementation
(the first, authoritative draft at lines 42-315 of `promise.ts`; the
second draft at lines 360-746 is token-identical modulo comments and is
embedded separately in namespace `Draft2`).

Design of the embedding:

* JavaScript values relevant to the resolution procedure become the
  inductive `JSValue`.  A foreign thenable is modelled by the trace of
  what its `then` implementation does when invoked: the list of calls it
  makes to the two callbacks it receives (`true` = first/fulfill
  callback, `false` = second/reject callback), followed by an optional
  thrown error.  An object whose `then` property getter throws is
  `JSValue.thenThrow`.
* The heap of promise objects is a list indexed by promise id; each
  `MyPromise` instance is a `Nat` id, allocated in creation order.
* `queueMicrotask` becomes a global FIFO job queue in the state; `tick`
  dequeues and runs one job.  The `log` field is pure instrumentation:
  it records each job dispatch and has no influence on behaviour; it is
  used to state that continuation bodies only ever run inside a tick.
* Each function-valued closure appearing in the source becomes a
  constructor of `CB` (for one-argument callbacks) or `FinCB` (for the
  zero-argument `onFinally` callbacks); their bodies are interpreted in
  `runCB` / `runFin`.  A user-supplied pure transform is `CB.fn`.
-/

/-- `PromiseState` from the source: `"pending" | "fulfilled" | "rejected"`. -/
inductive PState where
  | pending
  | fulfilled
  | rejected
deriving DecidableEq, Repr

mutual

/-- JavaScript values as far as the resolution procedure distinguishes
them; see the comment on `CallList` for the thenable model.
`thenThrow e` is an object whose `then` property read throws `e`;
`plainObj` is an object with no callable `then` member. -/
inductive JSValue where
  | undef
  | null
  | bool (b : Bool)
  | num (n : Int)
  | str (s : String)
  | promise (p : Nat)
  | plainObj (id : Nat)
  | arr (vs : List JSValue)
  | thenable (calls : CallList) (thr : Option JSValue)
  | thenThrow (e : JSValue)
  | typeError (msg : String)
  | aggErr (reasons : List JSValue) (msg : String)
  | statusObj (status : String) (payload : JSValue)

/-- The trace of callback invocations a foreign `then` implementation
performs when invoked (`JSValue.thenable calls thr` is an object with a
callable `then` member that performs the invocations in `calls` and
then, if `thr = some e`, throws `e`): each entry says which of the two
guarded callbacks it invokes (`true` = the fulfill/resolve one, `false`
= the reject one) and with which argument.  An inlined list, so that
the resolution procedure is structurally recursive. -/
inductive CallList where
  | nil
  | cons (isRes : Bool) (x : JSValue) (rest : CallList)
end

/-- Outcome of invoking a user callback: it returns a value or throws. -/
inductive FnRes where
  | ret (v : JSValue)
  | thrown (e : JSValue)

/-- The zero-argument `onFinally` callbacks.  `pure r` is a user function
whose invocation yields `r`; `settledTick cell total target` is the
closure `allSettled` passes to `.finally(...)` (counts completions and
resolves `target` with the descriptor array once all inputs settled). -/
inductive FinCB where
  | pure (r : FnRes)
  | settledTick (cell : Nat) (total : Nat) (target : Nat)

/-- A value sitting in a handler slot (`onfulfilled` / `onrejected`).
`val v` is a non-callable value (`typeof v !== "function"`); every other
constructor is one of the function-valued closures of the source:

* `fn f` — a user-supplied pure transform;
* `resolveOf p` / `rejectOf p` — the `resolve` / `reject` closures of
  promise `p` (passed to `.then` during promise adoption and in `race`);
* `constRet v` — the closure `() => value` in `finally`;
* `constThrow r` — the closure `() => { throw reason; }` in `finally`;
* `finallyFulfilled onf` / `finallyRejected onf` — the
  `passThroughFulfilled` / `passThroughRejected` closures of `finally`;
* `allF cell idx total target` — the fulfillment closure in `all`;
* `allCatch target` — the closure `(reason) => { reject(reason); }` in `all`;
* `anyCatch cell idx total target` — the rejection closure in `any`;
* `settledF cell idx` / `settledR cell idx` — the descriptor-recording
  closures in `allSettled`. -/
inductive CB where
  | val (v : JSValue)
  | fn (f : JSValue → FnRes)
  | resolveOf (p : Nat)
  | rejectOf (p : Nat)
  | constRet (v : JSValue)
  | constThrow (r : JSValue)
  | finallyFulfilled (onf : Option FinCB)
  | finallyRejected (onf : Option FinCB)
  | allF (cell : Nat) (idx : Nat) (total : Nat) (target : Nat)
  | allCatch (target : Nat)
  | anyCatch (cell : Nat) (idx : Nat) (total : Nat) (target : Nat)
  | settledF (cell : Nat) (idx : Nat)
  | settledR (cell : Nat) (idx : Nat)

/-- `typeof cb === "function"`: every handler-slot value other than a
plain non-callable value is one of the source's closures. -/
def CB.callable : CB → Bool
  | .val _ => false
  | _ => true

/-- A `Handler` record: the two optional transforms plus the
`resolve`/`reject` pair of the downstream promise created by `then`
(the source always stores the resolving functions of that promise, so
we store its id `dst`). -/
structure Handler where
  onfulfilled : CB
  onrejected : CB
  dst : Nat

/-- The fields of one `MyPromise` instance: `state`, `value`, `handlers`. -/
structure PromObj where
  state : PState := .pending
  value : JSValue := .undef
  handlers : List Handler := []

instance : Inhabited PromObj := ⟨{}⟩

/-- Shared mutable state captured by a combinator's closures:
the results/errors array (sparse, hence `Option`) and the running
completion counter. -/
structure Cell where
  arr : List (Option JSValue)
  count : Nat

instance : Inhabited Cell := ⟨⟨[], 0⟩⟩

/-- A microtask job: the `queueMicrotask` callback in `runHandlers`
captures the owning promise and the handler record. -/
structure Job where
  self : Nat
  h : Handler

/-- Global machine state: the promise heap (promise id = list index),
the combinator cells, the FIFO microtask queue, and the ghost `log` of
dispatched jobs (instrumentation only). -/
structure St where
  proms : List PromObj
  cells : List Cell
  queue : List Job
  log : List Job

/-- Read a promise object off the heap (unallocated ids read as a
default pending object; the semantics only ever touches allocated
ids). -/
def getP (st : St) (p : Nat) : PromObj := st.proms.getD p {}

/-- Write a promise object. -/
def setP (st : St) (p : Nat) (o : PromObj) : St :=
  { st with proms := st.proms.set p o }

/-- Allocate a fresh pending promise (the start of `new MyPromise`). -/
def allocP (st : St) : Nat × St :=
  (st.proms.length, { st with proms := st.proms ++ [{}] })

/-- Read a combinator cell. -/
def getCell (st : St) (c : Nat) : Cell := st.cells.getD c default

/-- Write a combinator cell. -/
def setCell (st : St) (c : Nat) (v : Cell) : St :=
  { st with cells := st.cells.set c v }

/-- Allocate a cell for a combinator over `total` inputs
(`promiseResults`/`promiseErrors` empty, counter `0`; the sparse array
is modelled as `total` empty slots). -/
def allocCell (st : St) (total : Nat) : Nat × St :=
  (st.cells.length,
   { st with cells := st.cells ++ [⟨List.replicate total none, 0⟩] })

/-- `runHandlers` (promise.ts lines 161-200, minus the job bodies): if
still pending do nothing; otherwise swap the handler queue for an empty
one and enqueue one microtask job per drained handler, in order.  The
job bodies themselves are `runJob` below. -/
def runHandlers (self : Nat) (st : St) : St :=
  let p := getP st self
  if p.state = .pending then st
  else
    let st := setP st self { p with handlers := [] }
    { st with queue := st.queue ++ p.handlers.map (fun h => ⟨self, h⟩) }

/-- The `reject` closure (promise.ts lines 108-113): a no-op unless
pending; otherwise transition to `rejected`, store the reason, and run
the handlers. -/
def reject (self : Nat) (reason : JSValue) (st : St) : St :=
  if (getP st self).state ≠ .pending then st
  else
    runHandlers self
      (setP st self { getP st self with state := .rejected, value := reason })

/-- `then` (promise.ts lines 122-136): create a new pending promise;
its executor synchronously pushes a handler record carrying the two
transforms and the new promise's resolving functions, then calls
`runHandlers`.  Returns the new promise's id. -/
def thenOp (src : Nat) (onf onr : CB) (st : St) : Nat × St :=
  let (d, st) := allocP st
  let p := getP st src
  let st := setP st src { p with handlers := p.handlers ++ [⟨onf, onr, d⟩] }
  (d, runHandlers src st)

mutual

/-- The `resolve` closure (promise.ts lines 50-106), the Resolution
Procedure: no-op unless pending; self-resolution rejects with a
`TypeError`; another `MyPromise` is adopted via `value.then(resolve,
reject)`; an object whose `then` read throws rejects with that error;
an object with a callable `then` has that `then` invoked with the two
guarded callbacks (`runCalls`, sharing one `called` flag) and, if the
invocation throws with neither callback having fired, rejects with the
thrown error; any other value fulfills the promise with it. -/
def resolve (self : Nat) (v : JSValue) (st : St) : St :=
  if (getP st self).state ≠ .pending then st
  else
    match v with
    | .promise q =>
      if q = self then
        reject self (.typeError "A promise cannot be resolved with itself.") st
      else
        (thenOp q (.resolveOf self) (.rejectOf self) st).2
    | .thenThrow e => reject self e st
    | .thenable calls thr =>
      let (called, st') := runCalls self calls false st
      match thr with
      | some e => if called then st' else reject self e st'
      | none => st'
    | u =>
      runHandlers self
        (setP st self { getP st self with state := .fulfilled, value := u })

/-- The two guarded callbacks handed to a foreign `then` (promise.ts
lines 81-90), folded over the trace of invocations the foreign `then`
performs: each invocation checks and sets the shared `called` flag, the
first one reaching the adopting promise's `resolve` or `reject`.
Returns the final flag together with the state. -/
def runCalls (self : Nat) (calls : CallList) (called : Bool)
    (st : St) : Bool × St :=
  match calls with
  | .nil => (called, st)
  | .cons isRes x rest =>
    if called then runCalls self rest called st
    else
      let st' := if isRes then resolve self x st else reject self x st
      runCalls self rest true st'

end

/-- `MyPromise.resolve` (promise.ts lines 202-211): identity on an
existing instance, otherwise a new promise whose executor immediately
calls `resolve` with the value. -/
def staticResolve (v : JSValue) (st : St) : Nat × St :=
  match v with
  | .promise q => (q, st)
  | _ =>
    let (p, st) := allocP st
    (p, resolve p v st)

/-- `MyPromise.reject` (promise.ts lines 213-217): always a fresh
promise, immediately rejected. -/
def staticReject (r : JSValue) (st : St) : Nat × St :=
  let (p, st) := allocP st
  (p, reject p r st)

/-- Invoke a zero-argument `onFinally` callback. -/
def runFin (f : FinCB) (st : St) : FnRes × St :=
  match f with
  | .pure r => (r, st)
  | .settledTick cell total target =>
    let c := getCell st cell
    let c' : Cell := ⟨c.arr, c.count + 1⟩
    let st := setCell st cell c'
    let st :=
      if c'.count = total then
        resolve target (.arr (c'.arr.map (fun o => o.getD .undef))) st
      else st
    (.ret .undef, st)

/-- Invoke a function-valued handler with one argument.  Each branch is
the body of the corresponding closure in the source; the `.val` branch
is unreachable in the semantics because every call site is guarded by
the `typeof` check. -/
def runCB (cb : CB) (arg : JSValue) (st : St) : FnRes × St :=
  match cb with
  | .val _ => (.ret .undef, st)
  | .fn f => (f arg, st)
  | .resolveOf p => (.ret .undef, resolve p arg st)
  | .rejectOf p => (.ret .undef, reject p arg st)
  | .constRet v => (.ret v, st)
  | .constThrow r => (.thrown r, st)
  | .finallyFulfilled onf =>
    match onf with
    | none => (.ret arg, st)
    | some f =>
      match runFin f st with
      | (.thrown e, st) => (.thrown e, st)
      | (.ret r, st) =>
        let (q, st) := staticResolve r st
        let (d, st) := thenOp q (.constRet arg) (.val .undef) st
        (.ret (.promise d), st)
  | .finallyRejected onf =>
    let step : FnRes × St :=
      match onf with
      | none => (.ret .undef, st)
      | some f => runFin f st
    match step with
    | (.thrown e, st) => (.thrown e, st)
    | (.ret r, st) =>
      let (q, st) := staticResolve r st
      let (d, st) := thenOp q (.constThrow arg) (.val .undef) st
      (.ret (.promise d), st)
  | .allF cell idx total target =>
    let c := getCell st cell
    let c' : Cell := ⟨c.arr.set idx (some arg), c.count + 1⟩
    let st := setCell st cell c'
    let st :=
      if c'.count = total then
        resolve target (.arr (c'.arr.map (fun o => o.getD .undef))) st
      else st
    (.ret .undef, st)
  | .allCatch target => (.ret .undef, reject target arg st)
  | .anyCatch cell idx total target =>
    let c := getCell st cell
    let c' : Cell := ⟨c.arr.set idx (some arg), c.count + 1⟩
    let st := setCell st cell c'
    let st :=
      if c'.count = total then
        reject target
          (.aggErr (c'.arr.map (fun o => o.getD .undef))
            "All promises rejected.") st
      else st
    (.ret .undef, st)
  | .settledF cell idx =>
    let c := getCell st cell
    let st := setCell st cell ⟨c.arr.set idx (some (.statusObj "fulfilled" arg)), c.count⟩
    (.ret .undef, st)
  | .settledR cell idx =>
    let c := getCell st cell
    let st := setCell st cell ⟨c.arr.set idx (some (.statusObj "rejected" arg)), c.count⟩
    (.ret .undef, st)

/-- The body of the `queueMicrotask` callback in `runHandlers`
(promise.ts lines 172-198): re-read the owning promise's state; on the
fulfilled branch run (or pass through) `onfulfilled` and report into
the downstream resolving functions; then re-check, and on the rejected
branch do the same with `onrejected`.  The dispatched job is recorded
in the ghost log first. -/
def runJob (j : Job) (st : St) : St :=
  let st := { st with log := st.log ++ [j] }
  let p := getP st j.self
  let st1 :=
    if p.state = .fulfilled then
      if j.h.onfulfilled.callable then
        match runCB j.h.onfulfilled p.value st with
        | (.ret r, st') => resolve j.h.dst r st'
        | (.thrown e, st') => reject j.h.dst e st'
      else resolve j.h.dst p.value st
    else st
  let p1 := getP st1 j.self
  if p1.state = .rejected then
    if j.h.onrejected.callable then
      match runCB j.h.onrejected p1.value st1 with
      | (.ret r, st2) => resolve j.h.dst r st2
      | (.thrown e, st2) => reject j.h.dst e st2
    else reject j.h.dst p1.value st1
  else st1

/-- One scheduler step: dequeue and run the front microtask, if any. -/
def tick (st : St) : St :=
  match st.queue with
  | [] => st
  | j :: rest => runJob j { st with queue := rest }

/-- Iterated scheduler steps. -/
def run (n : Nat) (st : St) : St :=
  match n with
  | 0 => st
  | n + 1 => run n (tick st)

/-- `catch` (promise.ts lines 138-145): `this.then(undefined, onrejected)`. -/
def catchOp (src : Nat) (onr : CB) (st : St) : Nat × St :=
  thenOp src (.val .undef) onr st

/-- `finally` (promise.ts lines 147-159):
`this.then(passThroughFulfilled, passThroughRejected)`. -/
def finallyOp (src : Nat) (onf : Option FinCB) (st : St) : Nat × St :=
  thenOp src (.finallyFulfilled onf) (.finallyRejected onf) st

/-- `MyPromise.all` (promise.ts lines 219-242). -/
def allOp (values : List JSValue) (st : St) : Nat × St :=
  let total := values.length
  let (cell, st) := allocCell st total
  let (target, st) := allocP st
  if total = 0 then (target, resolve target (.arr []) st)
  else
    (target,
     (values.enum.foldl (fun st vi =>
        let (p, st) := staticResolve vi.2 st
        let (d1, st) := thenOp p (.allF cell vi.1 total target) (.val .undef) st
        (thenOp d1 (.val .undef) (.allCatch target) st).2) st))

/-- `MyPromise.allSettled` (promise.ts lines 244-277). -/
def allSettledOp (values : List JSValue) (st : St) : Nat × St :=
  let total := values.length
  let (cell, st) := allocCell st total
  let (target, st) := allocP st
  if total = 0 then (target, resolve target (.arr []) st)
  else
    (target,
     (values.enum.foldl (fun st vi =>
        let (p, st) := staticResolve vi.2 st
        let (d1, st) := thenOp p (.settledF cell vi.1) (.val .undef) st
        let (d2, st) := thenOp d1 (.val .undef) (.settledR cell vi.1) st
        (finallyOp d2 (some (.settledTick cell total target)) st).2) st))

/-- `MyPromise.race` (promise.ts lines 279-285). -/
def raceOp (values : List JSValue) (st : St) : Nat × St :=
  let (target, st) := allocP st
  (target,
   values.foldl (fun st v =>
      let (p, st) := staticResolve v st
      (thenOp p (.resolveOf target) (.rejectOf target) st).2) st)

/-- `MyPromise.any` (promise.ts lines 287-314). -/
def anyOp (values : List JSValue) (st : St) : Nat × St :=
  let total := values.length
  let (cell, st) := allocCell st total
  let (target, st) := allocP st
  if total = 0 then
    (target, reject target (.aggErr [] "Values is empty.") st)
  else
    (target,
     (values.enum.foldl (fun st vi =>
        let (p, st) := staticResolve vi.2 st
        let (d1, st) := thenOp p (.resolveOf target) (.val .undef) st
        (thenOp d1 (.val .undef) (.anyCatch cell vi.1 total target) st).2) st))

/-- One observable interaction with the library: a call into one of its
public operations (`doAlloc` is `new MyPromise` with the executor's
effects represented by the subsequent resolve/reject acts, since the
executor runs synchronously and can only interact through the two
resolving functions), or one scheduler step. -/
inductive Act where
  | doAlloc
  | doResolve (p : Nat) (v : JSValue)
  | doReject (p : Nat) (v : JSValue)
  | doThen (src : Nat) (onf onr : CB)
  | doCatch (src : Nat) (onr : CB)
  | doFinally (src : Nat) (onf : Option FinCB)
  | doStaticResolve (v : JSValue)
  | doStaticReject (v : JSValue)
  | doAll (values : List JSValue)
  | doAllSettled (values : List JSValue)
  | doRace (values : List JSValue)
  | doAny (values : List JSValue)
  | doTick

/-- Interpret one interaction. -/
def applyAct (a : Act) (st : St) : St :=
  match a with
  | .doAlloc => (allocP st).2
  | .doResolve p v => resolve p v st
  | .doReject p v => reject p v st
  | .doThen src onf onr => (thenOp src onf onr st).2
  | .doCatch src onr => (catchOp src onr st).2
  | .doFinally src onf => (finallyOp src onf st).2
  | .doStaticResolve v => (staticResolve v st).2
  | .doStaticReject v => (staticReject v st).2
  | .doAll vs => (allOp vs st).2
  | .doAllSettled vs => (allSettledOp vs st).2
  | .doRace vs => (raceOp vs st).2
  | .doAny vs => (anyOp vs st).2
  | .doTick => tick st

/-- Interpret a finite sequence of interactions, in order. -/
def applyActs (acts : List Act) (st : St) : St :=
  acts.foldl (fun st a => applyAct a st) st

/-- The empty machine: no promises, no cells, empty queue. -/
def emptySt : St := ⟨[], [], [], []⟩

/-! ## Frame lemmas and the settlement-freezing invariant -/

theorem getD_set_self {α : Type} (l : List α) (i : Nat) (a d : α)
    (h : i < l.length) : (l.set i a).getD i d = a := by
  rw [List.getD_eq_getElem _ _ (by simpa using h)]
  exact List.getElem_set_self (by simpa using h)

theorem getD_set_ne {α : Type} (l : List α) (i j : Nat) (a d : α)
    (h : j ≠ i) : (l.set i a).getD j d = l.getD j d := by
  rw [List.getD_eq_getD_get?, List.getD_eq_getD_get?, List.get?_eq_getElem?,
    List.get?_eq_getElem?, List.getElem?_set_ne (fun he => h he.symm)]

theorem getP_setP_self (st : St) (p : Nat) (o : PromObj)
    (h : p < st.proms.length) : getP (setP st p o) p = o :=
  getD_set_self st.proms p o {} h

theorem getP_setP_ne (st : St) (p q : Nat) (o : PromObj) (h : q ≠ p) :
    getP (setP st p o) q = getP st q :=
  getD_set_ne st.proms p q o {} h

theorem getP_allocP (st : St) (p : Nat) (h : p < st.proms.length) :
    getP (allocP st).2 p = getP st p :=
  List.getD_append _ _ _ _ h

/-- A settled promise id is an allocated one: unallocated ids read as
pending. -/
theorem settled_lt {st : St} {p : Nat}
    (h : (getP st p).state ≠ .pending) : p < st.proms.length := by
  by_contra hge
  push_neg at hge
  rw [getP, List.getD_eq_default _ _ hge] at h
  exact h rfl

/-- `p`'s state and value are unchanged between `st` and `st'`. -/
def frozenAt (p : Nat) (st st' : St) : Prop :=
  (getP st' p).state = (getP st p).state ∧
  (getP st' p).value = (getP st p).value

/-- The evolution invariant: allocation only grows the heap, and any
already-settled promise keeps its state and value. -/
def evolves (st st' : St) : Prop :=
  st.proms.length ≤ st'.proms.length ∧
  ∀ p, (getP st p).state ≠ .pending → frozenAt p st st'

/-- `evolves` plus: no continuation body was dispatched (ghost log
unchanged) . -/
def quiet (st st' : St) : Prop :=
  evolves st st' ∧ st'.log = st.log

theorem evolves_refl (st : St) : evolves st st :=
  ⟨le_refl _, fun _ _ => ⟨rfl, rfl⟩⟩

theorem evolves_trans {a b c : St} (h1 : evolves a b)
    (h2 : evolves b c) : evolves a c := by
  refine ⟨le_trans h1.1 h2.1, fun p hs => ?_⟩
  have f1 := h1.2 p hs
  have f2 := h2.2 p (by rw [f1.1]; exact hs)
  exact ⟨f2.1.trans f1.1, f2.2.trans f1.2⟩

theorem quiet_refl (st : St) : quiet st st := ⟨evolves_refl st, rfl⟩

theorem quiet_trans {a b c : St} (h1 : quiet a b) (h2 : quiet b c) :
    quiet a c :=
  ⟨evolves_trans h1.1 h2.1, h2.2.trans h1.2⟩

theorem runHandlers_pending {st : St} {self : Nat}
    (h : (getP st self).state = .pending) : runHandlers self st = st := by
  simp [runHandlers, h]

theorem runHandlers_settled {st : St} {self : Nat}
    (h : (getP st self).state ≠ .pending) :
    runHandlers self st =
      { setP st self { getP st self with handlers := [] } with
          queue := st.queue ++ (getP st self).handlers.map
            (fun h => ⟨self, h⟩) } := by
  simp [runHandlers, h, setP]

theorem quiet_setP_sameSV (st : St) (p : Nat) (hs : List Handler) :
    quiet st (setP st p { getP st p with handlers := hs }) := by
  refine ⟨⟨?_, fun q hq => ?_⟩, ?_⟩
  · simp [setP]
  · by_cases hqp : q = p
    · subst hqp
      have hb : q < st.proms.length := settled_lt hq
      exact ⟨by rw [getP_setP_self _ _ _ hb], by rw [getP_setP_self _ _ _ hb]⟩
    · exact ⟨by rw [getP_setP_ne _ _ _ _ hqp], by rw [getP_setP_ne _ _ _ _ hqp]⟩
  · simp [setP]

theorem quiet_runHandlers (self : Nat) (st : St) :
    quiet st (runHandlers self st) := by
  by_cases h : (getP st self).state = .pending
  · rw [runHandlers_pending h]; exact quiet_refl st
  · rw [runHandlers_settled h]
    have h1 := quiet_setP_sameSV st self []
    refine ⟨⟨h1.1.1, fun q hq => h1.1.2 q hq⟩, h1.2⟩

theorem reject_settled {st : St} {self : Nat} (r : JSValue)
    (h : (getP st self).state ≠ .pending) : reject self r st = st := by
  simp [reject, h]

theorem reject_pending {st : St} {self : Nat} (r : JSValue)
    (h : (getP st self).state = .pending) :
    reject self r st =
      runHandlers self
        (setP st self { getP st self with state := .rejected, value := r }) := by
  simp [reject, h]

theorem quiet_reject (self : Nat) (r : JSValue) (st : St) :
    quiet st (reject self r st) := by
  by_cases h : (getP st self).state = .pending
  · rw [reject_pending r h]
    refine quiet_trans (b := setP st self
      { getP st self with state := .rejected, value := r }) ?_
      (quiet_runHandlers _ _)
    refine ⟨⟨?_, fun p hs => ?_⟩, ?_⟩
    · simp [setP]
    · have hps : p ≠ self := fun he => hs (he ▸ h)
      exact ⟨by rw [getP_setP_ne _ _ _ _ hps], by rw [getP_setP_ne _ _ _ _ hps]⟩
    · simp [setP]
  · rw [reject_settled r h]; exact quiet_refl st

theorem quiet_allocP (st : St) : quiet st (allocP st).2 := by
  refine ⟨⟨?_, fun p hs => ?_⟩, ?_⟩
  · simp [allocP]
  · have hb : p < st.proms.length := settled_lt hs
    exact ⟨by rw [getP_allocP _ _ hb], by rw [getP_allocP _ _ hb]⟩
  · simp [allocP]

theorem quiet_pushHandler (src : Nat) (h : Handler) (st : St) :
    quiet st (setP st src
      { getP st src with handlers := (getP st src).handlers ++ [h] }) :=
  quiet_setP_sameSV st src ((getP st src).handlers ++ [h])

theorem thenOp_eq (src : Nat) (onf onr : CB) (st : St) :
    thenOp src onf onr st =
      ((allocP st).1,
        runHandlers src (setP (allocP st).2 src
          { getP (allocP st).2 src with
              handlers := (getP (allocP st).2 src).handlers ++
                [⟨onf, onr, (allocP st).1⟩] })) := by
  simp [thenOp]

theorem quiet_thenOp (src : Nat) (onf onr : CB) (st : St) :
    quiet st (thenOp src onf onr st).2 := by
  rw [thenOp_eq]
  exact quiet_trans (quiet_allocP st)
    (quiet_trans (quiet_pushHandler _ _ _) (quiet_runHandlers _ _))

/-- Values on which the Resolution Procedure falls through to plain
fulfillment: not a promise instance, not an object with a callable
`then`, not an object whose `then` read throws. -/
def isPlain : JSValue → Bool
  | .promise _ => false
  | .thenable _ _ => false
  | .thenThrow _ => false
  | _ => true

theorem resolve_settled {st : St} {self : Nat} (v : JSValue)
    (h : (getP st self).state ≠ .pending) : resolve self v st = st := by
  rw [resolve.eq_def]
  rw [if_pos h]

theorem resolve_self_eq {st : St} {self : Nat}
    (h : (getP st self).state = .pending) :
    resolve self (.promise self) st =
      reject self (.typeError "A promise cannot be resolved with itself.") st := by
  rw [resolve]
  simp [h]

theorem resolve_promise_eq {st : St} {self q : Nat}
    (h : (getP st self).state = .pending) (hq : q ≠ self) :
    resolve self (.promise q) st =
      (thenOp q (.resolveOf self) (.rejectOf self) st).2 := by
  rw [resolve]
  simp [h, hq]

theorem resolve_thenThrow_eq {st : St} {self : Nat} (e : JSValue)
    (h : (getP st self).state = .pending) :
    resolve self (.thenThrow e) st = reject self e st := by
  rw [resolve]
  simp [h]

theorem resolve_thenable_eq {st : St} {self : Nat}
    (calls : CallList) (thr : Option JSValue)
    (h : (getP st self).state = .pending) :
    resolve self (.thenable calls thr) st =
      match thr with
      | some e =>
        if (runCalls self calls false st).1 then (runCalls self calls false st).2
        else reject self e (runCalls self calls false st).2
      | none => (runCalls self calls false st).2 := by
  rw [resolve]
  simp [h]

theorem resolve_plain_eq {st : St} {self : Nat} {v : JSValue}
    (hv : isPlain v = true) (h : (getP st self).state = .pending) :
    resolve self v st =
      runHandlers self
        (setP st self { getP st self with state := .fulfilled, value := v }) := by
  cases v <;> simp [isPlain] at hv <;> (rw [resolve]; simp [h]) <;> simp

theorem runCalls_nil (self : Nat) (called : Bool) (st : St) :
    runCalls self .nil called st = (called, st) := rfl

theorem runCalls_called (self : Nat) (st : St) :
    ∀ calls : CallList, runCalls self calls true st = (true, st)
  | .nil => rfl
  | .cons isRes x rest => by
      simpa [runCalls] using runCalls_called self st rest

theorem runCalls_cons (self : Nat) (isRes : Bool) (x : JSValue)
    (rest : CallList) (st : St) :
    runCalls self (.cons isRes x rest) false st =
      runCalls self rest true
        (if isRes then resolve self x st else reject self x st) := by
  rw [runCalls]
  simp

/-- `resolve` with a plain value, on a pending promise, while it is
pending just fulfills; `quiet` version of that state change. -/
theorem quiet_fulfillNow {st : St} {self : Nat} (u : JSValue)
    (h : (getP st self).state = .pending) :
    quiet st (runHandlers self
      (setP st self { getP st self with state := .fulfilled, value := u })) := by
  refine quiet_trans (b := setP st self
    { getP st self with state := .fulfilled, value := u }) ?_
    (quiet_runHandlers _ _)
  refine ⟨⟨?_, fun p hs => ?_⟩, ?_⟩
  · simp [setP]
  · have hps : p ≠ self := fun he => hs (he ▸ h)
    exact ⟨by rw [getP_setP_ne _ _ _ _ hps], by rw [getP_setP_ne _ _ _ _ hps]⟩
  · simp [setP]

theorem quiet_resolve_all (n : Nat) :
    (∀ v self st, sizeOf v < n → quiet st (resolve self v st)) ∧
    (∀ (calls : CallList) self called st, sizeOf calls < n →
      quiet st (runCalls self calls called st).2) := by
  induction n with
  | zero => exact ⟨fun v self st h => absurd h (by omega),
      fun c self b st h => absurd h (by omega)⟩
  | succ n ih =>
    constructor
    · intro v self st hsz
      by_cases hp : (getP st self).state = .pending
      · cases v with
        | promise q =>
          by_cases hq : q = self
          · subst hq
            rw [resolve_self_eq hp]
            exact quiet_reject _ _ _
          · rw [resolve_promise_eq hp hq]
            exact quiet_thenOp _ _ _ _
        | thenThrow e =>
          rw [resolve_thenThrow_eq e hp]
          exact quiet_reject _ _ _
        | thenable calls thr =>
          have hc : sizeOf calls < n := by simp at hsz; omega
          have h1 : quiet st (runCalls self calls false st).2 :=
            ih.2 calls self false st hc
          rw [resolve_thenable_eq calls thr hp]
          cases thr with
          | none => exact h1
          | some e =>
            by_cases hcd : (runCalls self calls false st).1
            · simpa [hcd] using h1
            · simp only [hcd, if_false]
              exact quiet_trans h1 (quiet_reject _ _ _)
        | undef => rw [resolve_plain_eq (v := .undef) rfl hp]; exact quiet_fulfillNow _ hp
        | null => rw [resolve_plain_eq (v := .null) rfl hp]; exact quiet_fulfillNow _ hp
        | bool b => rw [resolve_plain_eq (v := .bool b) rfl hp]; exact quiet_fulfillNow _ hp
        | num m => rw [resolve_plain_eq (v := .num m) rfl hp]; exact quiet_fulfillNow _ hp
        | str s => rw [resolve_plain_eq (v := .str s) rfl hp]; exact quiet_fulfillNow _ hp
        | plainObj i => rw [resolve_plain_eq (v := .plainObj i) rfl hp]; exact quiet_fulfillNow _ hp
        | arr vs => rw [resolve_plain_eq (v := .arr vs) rfl hp]; exact quiet_fulfillNow _ hp
        | typeError m => rw [resolve_plain_eq (v := .typeError m) rfl hp]; exact quiet_fulfillNow _ hp
        | aggErr rs m => rw [resolve_plain_eq (v := .aggErr rs m) rfl hp]; exact quiet_fulfillNow _ hp
        | statusObj s w => rw [resolve_plain_eq (v := .statusObj s w) rfl hp]; exact quiet_fulfillNow _ hp
      · rw [resolve_settled v hp]
        exact quiet_refl st
    · intro calls self called st hsz
      match calls, called with
      | .nil, b => rw [runCalls_nil]; exact quiet_refl st
      | .cons isRes x rest, true =>
        rw [runCalls_called]
        exact quiet_refl st
      | .cons isRes x rest, false =>
        have hrest : sizeOf rest < n := by simp at hsz; omega
        have hx : sizeOf x < n := by simp at hsz; omega
        rw [runCalls_cons]
        refine quiet_trans (b := if isRes then resolve self x st
          else reject self x st) ?_ (ih.2 rest self true _ hrest)
        by_cases hr : isRes
        · simpa [hr] using ih.1 x self st hx
        · simpa [hr] using quiet_reject self x st

theorem quiet_resolve (self : Nat) (v : JSValue) (st : St) :
    quiet st (resolve self v st) :=
  (quiet_resolve_all (sizeOf v + 1)).1 v self st (by omega)

theorem quiet_runCalls (self : Nat) (calls : CallList)
    (called : Bool) (st : St) :
    quiet st (runCalls self calls called st).2 :=
  (quiet_resolve_all (sizeOf calls + 1)).2 calls self called st (by omega)

theorem quiet_setCell (st : St) (c : Nat) (v : Cell) :
    quiet st (setCell st c v) :=
  ⟨⟨le_refl _, fun _ _ => ⟨rfl, rfl⟩⟩, rfl⟩

theorem quiet_allocCell (st : St) (total : Nat) :
    quiet st (allocCell st total).2 :=
  ⟨⟨le_refl _, fun _ _ => ⟨rfl, rfl⟩⟩, rfl⟩

theorem quiet_staticResolve (v : JSValue) (st : St) :
    quiet st (staticResolve v st).2 := by
  cases v
  case promise q => exact quiet_refl st
  all_goals
    exact quiet_trans (quiet_allocP st) (quiet_resolve _ _ _)

theorem quiet_staticReject (r : JSValue) (st : St) :
    quiet st (staticReject r st).2 :=
  quiet_trans (quiet_allocP st) (quiet_reject _ _ _)

theorem quiet_ite (c : Prop) [Decidable c] (st a b : St)
    (ha : quiet st a) (hb : quiet st b) : quiet st (if c then a else b) := by
  by_cases h : c
  · simpa [h] using ha
  · simpa [h] using hb

theorem quiet_runFin (f : FinCB) (st : St) : quiet st (runFin f st).2 := by
  cases f with
  | pure r => exact quiet_refl st
  | settledTick cell total target =>
    simp only [runFin]
    have h1 := quiet_setCell st cell
      ⟨(getCell st cell).arr, (getCell st cell).count + 1⟩
    refine quiet_trans h1 (quiet_ite _ _ _ _ (quiet_resolve _ _ _) (quiet_refl _))

theorem quiet_runCB (cb : CB) (arg : JSValue) (st : St) :
    quiet st (runCB cb arg st).2 := by
  cases cb with
  | val v => exact quiet_refl st
  | fn f => exact quiet_refl st
  | resolveOf p => exact quiet_resolve _ _ _
  | rejectOf p => exact quiet_reject _ _ _
  | constRet v => exact quiet_refl st
  | constThrow r => exact quiet_refl st
  | finallyFulfilled onf =>
    cases onf with
    | none => exact quiet_refl st
    | some f =>
      have h1 := quiet_runFin f st
      simp only [runCB]
      rcases hrf : runFin f st with ⟨r, st2⟩
      rw [hrf] at h1
      cases r with
      | thrown e => exact h1
      | ret rv =>
        exact quiet_trans h1 (quiet_trans (quiet_staticResolve rv st2)
          (quiet_thenOp _ _ _ _))
  | finallyRejected onf =>
    cases onf with
    | none =>
      simp only [runCB]
      exact quiet_trans (quiet_staticResolve .undef st) (quiet_thenOp _ _ _ _)
    | some f =>
      have h1 := quiet_runFin f st
      simp only [runCB]
      rcases hrf : runFin f st with ⟨r, st2⟩
      rw [hrf] at h1
      cases r with
      | thrown e => exact h1
      | ret rv =>
        exact quiet_trans h1 (quiet_trans (quiet_staticResolve rv st2)
          (quiet_thenOp _ _ _ _))
  | allF cell idx total target =>
    simp only [runCB]
    have h1 := quiet_setCell st cell
      ⟨(getCell st cell).arr.set idx (some arg), (getCell st cell).count + 1⟩
    exact quiet_trans h1 (quiet_ite _ _ _ _ (quiet_resolve _ _ _) (quiet_refl _))
  | allCatch target => exact quiet_reject _ _ _
  | anyCatch cell idx total target =>
    simp only [runCB]
    have h1 := quiet_setCell st cell
      ⟨(getCell st cell).arr.set idx (some arg), (getCell st cell).count + 1⟩
    exact quiet_trans h1 (quiet_ite _ _ _ _ (quiet_reject _ _ _) (quiet_refl _))
  | settledF cell idx => exact quiet_setCell _ _ _
  | settledR cell idx => exact quiet_setCell _ _ _

theorem evolves_log_set (st : St) (l : List Job) :
    evolves st { st with log := l } :=
  ⟨le_refl _, fun _ _ => ⟨rfl, rfl⟩⟩

theorem evolves_queue_set (st : St) (q : List Job) :
    evolves st { st with queue := q } :=
  ⟨le_refl _, fun _ _ => ⟨rfl, rfl⟩⟩

theorem evolves_branch (dst : Nat) (cb : CB) (v : JSValue) (st : St) :
    evolves st
      (match runCB cb v st with
        | (.ret r, st') => resolve dst r st'
        | (.thrown e, st') => reject dst e st') := by
  have h1 := (quiet_runCB cb v st).1
  rcases hrc : runCB cb v st with ⟨r, st2⟩
  rw [hrc] at h1
  cases r with
  | ret rv => exact evolves_trans h1 (quiet_resolve _ _ _).1
  | thrown e => exact evolves_trans h1 (quiet_reject _ _ _).1

theorem evolves_jobStep (self dst : Nat) (cb : CB) (want : PState)
    (fallback : St → St)
    (hfb : ∀ st, evolves st (fallback st)) (st : St) :
    evolves st
      (if (getP st self).state = want then
        if cb.callable then
          match runCB cb (getP st self).value st with
          | (.ret r, st') => resolve dst r st'
          | (.thrown e, st') => reject dst e st'
        else fallback st
      else st) := by
  by_cases hf : (getP st self).state = want
  · simp only [hf, if_true]
    by_cases hcall : cb.callable
    · simp only [hcall, if_true]
      exact evolves_branch dst cb (getP st self).value st
    · simp only [hcall, if_false]
      exact hfb st
  · simp only [hf, if_false]
    exact evolves_refl _

theorem evolves_runJob (j : Job) (st : St) : evolves st (runJob j st) := by
  simp only [runJob]
  refine evolves_trans (evolves_log_set st (st.log ++ [j])) ?_
  refine evolves_trans
    (evolves_jobStep j.self j.h.dst j.h.onfulfilled .fulfilled
      (fun s => resolve j.h.dst (getP s j.self).value s)
      (fun s => (quiet_resolve _ _ _).1) _) ?_
  refine evolves_jobStep j.self j.h.dst j.h.onrejected .rejected
    (fun s => reject j.h.dst (getP s j.self).value s)
    (fun s => (quiet_reject _ _ _).1) _

theorem evolves_tick (st : St) : evolves st (tick st) := by
  unfold tick
  cases hq : st.queue with
  | nil => exact evolves_refl st
  | cons j rest =>
    exact evolves_trans (evolves_queue_set st rest) (evolves_runJob j _)

theorem quiet_foldl {α : Type} (f : St → α → St)
    (h : ∀ st a, quiet st (f st a)) :
    ∀ (l : List α) (st : St), quiet st (l.foldl f st) := by
  intro l
  induction l with
  | nil => intro st; exact quiet_refl st
  | cons a rest ih =>
    intro st
    exact quiet_trans (h st a) (ih (f st a))

theorem quiet_step2 {a b : St} (h1 : quiet a b)
    (f : St → Nat × St) (hf : ∀ st, quiet st (f st).2) :
    quiet a (f b).2 :=
  quiet_trans h1 (hf b)

theorem quiet_allOp (values : List JSValue) (st : St) :
    quiet st (allOp values st).2 := by
  simp only [allOp]
  have hc := quiet_allocCell st values.length
  have hp := quiet_trans hc (quiet_allocP (allocCell st values.length).2)
  by_cases h0 : values.length = 0
  · simp only [h0, if_true]
    exact quiet_trans
      (quiet_trans (quiet_allocCell st 0) (quiet_allocP (allocCell st 0).2))
      (quiet_resolve _ _ _)
  · simp only [h0, if_false]
    refine quiet_trans hp (quiet_foldl _ (fun st vi => ?_) _ _)
    exact quiet_trans (quiet_staticResolve _ _)
      (quiet_trans (quiet_thenOp _ _ _ _) (quiet_thenOp _ _ _ _))

theorem quiet_allSettledOp (values : List JSValue) (st : St) :
    quiet st (allSettledOp values st).2 := by
  simp only [allSettledOp]
  have hc := quiet_allocCell st values.length
  have hp := quiet_trans hc (quiet_allocP (allocCell st values.length).2)
  by_cases h0 : values.length = 0
  · simp only [h0, if_true]
    exact quiet_trans
      (quiet_trans (quiet_allocCell st 0) (quiet_allocP (allocCell st 0).2))
      (quiet_resolve _ _ _)
  · simp only [h0, if_false]
    refine quiet_trans hp (quiet_foldl _ (fun st vi => ?_) _ _)
    exact quiet_trans (quiet_staticResolve _ _)
      (quiet_trans (quiet_thenOp _ _ _ _)
        (quiet_trans (quiet_thenOp _ _ _ _) (quiet_thenOp _ _ _ _)))

theorem quiet_raceOp (values : List JSValue) (st : St) :
    quiet st (raceOp values st).2 := by
  simp only [raceOp]
  refine quiet_trans (quiet_allocP st) (quiet_foldl _ (fun st v => ?_) _ _)
  exact quiet_trans (quiet_staticResolve _ _) (quiet_thenOp _ _ _ _)

theorem quiet_anyOp (values : List JSValue) (st : St) :
    quiet st (anyOp values st).2 := by
  simp only [anyOp]
  have hc := quiet_allocCell st values.length
  have hp := quiet_trans hc (quiet_allocP (allocCell st values.length).2)
  by_cases h0 : values.length = 0
  · simp only [h0, if_true]
    exact quiet_trans
      (quiet_trans (quiet_allocCell st 0) (quiet_allocP (allocCell st 0).2))
      (quiet_reject _ _ _)
  · simp only [h0, if_false]
    refine quiet_trans hp (quiet_foldl _ (fun st vi => ?_) _ _)
    exact quiet_trans (quiet_staticResolve _ _)
      (quiet_trans (quiet_thenOp _ _ _ _) (quiet_thenOp _ _ _ _))

theorem evolves_applyAct (a : Act) (st : St) : evolves st (applyAct a st) := by
  cases a with
  | doAlloc => exact (quiet_allocP st).1
  | doResolve p v => exact (quiet_resolve p v st).1
  | doReject p v => exact (quiet_reject p v st).1
  | doThen src onf onr => exact (quiet_thenOp src onf onr st).1
  | doCatch src onr => exact (quiet_thenOp src _ onr st).1
  | doFinally src onf => exact (quiet_thenOp src _ _ st).1
  | doStaticResolve v => exact (quiet_staticResolve v st).1
  | doStaticReject v => exact (quiet_staticReject v st).1
  | doAll vs => exact (quiet_allOp vs st).1
  | doAllSettled vs => exact (quiet_allSettledOp vs st).1
  | doRace vs => exact (quiet_raceOp vs st).1
  | doAny vs => exact (quiet_anyOp vs st).1
  | doTick => exact evolves_tick st

theorem evolves_applyActs (acts : List Act) (st : St) :
    evolves st (applyActs acts st) := by
  induction acts generalizing st with
  | nil => exact evolves_refl st
  | cons a rest ih =>
    exact evolves_trans (evolves_applyAct a st) (ih (applyAct a st))

/-! ## Pointwise effect lemmas for settlement, jobs and ticks -/

theorem getP_allocP_fresh (st : St) :
    getP (allocP st).2 (allocP st).1 = {} := by
  simp [getP, allocP, List.getD_append_right]

theorem settle_getP {st : St} {p : Nat} (o : PromObj)
    (ho : o.state ≠ .pending) (hb : p < st.proms.length) :
    getP (runHandlers p (setP st p o)) p = { o with handlers := [] } := by
  have h1 : getP (setP st p o) p = o := getP_setP_self st p o hb
  rw [runHandlers_settled (by rw [h1]; exact ho), h1]
  have hb2 : p < (setP st p o).proms.length := by simpa [setP] using hb
  exact getP_setP_self _ p _ hb2

theorem settle_getP_ne {st : St} {p q : Nat} (o : PromObj) (hq : q ≠ p) :
    getP (runHandlers p (setP st p o)) q = getP st q := by
  by_cases hp : (getP (setP st p o) p).state = .pending
  · rw [runHandlers_pending hp]
    exact getP_setP_ne st p q o hq
  · rw [runHandlers_settled hp]
    show getP (setP (setP st p o) p _) q = getP st q
    rw [getP_setP_ne _ _ _ _ hq, getP_setP_ne _ _ _ _ hq]

theorem settle_queue {st : St} {p : Nat} (o : PromObj)
    (ho : o.state ≠ .pending) (hb : p < st.proms.length) :
    (runHandlers p (setP st p o)).queue =
      st.queue ++ o.handlers.map (fun h => ⟨p, h⟩) := by
  have h1 : getP (setP st p o) p = o := getP_setP_self st p o hb
  rw [runHandlers_settled (by rw [h1]; exact ho), h1]
  simp [setP]

theorem settle_log {st : St} {p : Nat} (o : PromObj) :
    (runHandlers p (setP st p o)).log = st.log := by
  by_cases hp : (getP (setP st p o) p).state = .pending
  · rw [runHandlers_pending hp]; rfl
  · rw [runHandlers_settled hp]; rfl

/-- Settling a pending promise by `reject`: the resulting object. -/
theorem reject_getP {st : St} {p : Nat} (r : JSValue)
    (hp : (getP st p).state = .pending) (hb : p < st.proms.length) :
    getP (reject p r st) p =
      { state := .rejected, value := r, handlers := [] } := by
  rw [reject_pending r hp]
  exact settle_getP _ (by simp) hb

/-- Settling a pending promise with a plain value: the resulting object. -/
theorem resolve_plain_getP {s : St} {p : Nat} {v : JSValue}
    (hv : isPlain v = true) (hp : (getP s p).state = .pending)
    (hb : p < s.proms.length) :
    getP (resolve p v s) p =
      { state := .fulfilled, value := v, handlers := [] } := by
  rw [resolve_plain_eq hv hp]
  exact settle_getP _ (by simp) hb

theorem run_zero (st : St) : run 0 st = st := rfl

theorem run_succ (n : Nat) (st : St) : run (n + 1) st = run n (tick st) := rfl

theorem tick_cons {st : St} {j : Job} {rest : List Job}
    (hq : st.queue = j :: rest) :
    tick st = runJob j { st with queue := rest } := by
  simp [tick, hq]

theorem tick_nil {st : St} (hq : st.queue = []) : tick st = st := by
  simp [tick, hq]

theorem evolves_run (n : Nat) (st : St) : evolves st (run n st) := by
  induction n generalizing st with
  | zero => exact evolves_refl st
  | succ n ih => exact evolves_trans (evolves_tick st) (ih (tick st))

/-- Log effect of the job-runner: it records exactly the dispatched job
(and nothing else touches the log). -/
theorem log_branch (dst : Nat) (cb : CB) (v : JSValue) (st : St) :
    (match runCB cb v st with
      | (.ret r, st') => resolve dst r st'
      | (.thrown e, st') => reject dst e st').log = st.log := by
  have h1 := (quiet_runCB cb v st).2
  rcases hrc : runCB cb v st with ⟨r, st2⟩
  rw [hrc] at h1
  cases r with
  | ret rv => exact ((quiet_resolve _ _ _).2).trans h1
  | thrown e => exact ((quiet_reject _ _ _).2).trans h1

theorem log_jobStep (self dst : Nat) (cb : CB) (want : PState)
    (fallback : St → St) (hfb : ∀ st, (fallback st).log = st.log) (st : St) :
    (if (getP st self).state = want then
      if cb.callable then
        match runCB cb (getP st self).value st with
        | (.ret r, st') => resolve dst r st'
        | (.thrown e, st') => reject dst e st'
      else fallback st
    else st).log = st.log := by
  by_cases hf : (getP st self).state = want
  · simp only [hf, if_true]
    by_cases hcall : cb.callable
    · simp only [hcall, if_true]
      exact log_branch dst cb (getP st self).value st
    · simp only [hcall, if_false]
      exact hfb st
  · simp only [hf, if_false]

theorem log_runJob (j : Job) (st : St) :
    (runJob j st).log = st.log ++ [j] := by
  simp only [runJob]
  rw [log_jobStep j.self j.h.dst j.h.onrejected .rejected
    (fun s => reject j.h.dst (getP s j.self).value s)
    (fun s => (quiet_reject _ _ _).2)]
  rw [log_jobStep j.self j.h.dst j.h.onfulfilled .fulfilled
    (fun s => resolve j.h.dst (getP s j.self).value s)
    (fun s => (quiet_resolve _ _ _).2)]

/-- Running a job whose source promise is rejected, with a callable
rejection transform: the transform is invoked on the stored reason and
its outcome is reported into the downstream resolving functions. -/
theorem runJob_rejected_fn {st : St} {p : Nat} {r : JSValue}
    {onf onr : CB} {dst : Nat}
    (h1 : (getP st p).state = .rejected) (h2 : (getP st p).value = r)
    (hc : onr.callable = true) :
    runJob ⟨p, ⟨onf, onr, dst⟩⟩ st =
      (match runCB onr r { st with log := st.log ++ [⟨p, ⟨onf, onr, dst⟩⟩] } with
        | (.ret x, st') => resolve dst x st'
        | (.thrown e, st') => reject dst e st') := by
  simp only [runJob]
  generalize hL : ({ st with log := st.log ++ [⟨p, ⟨onf, onr, dst⟩⟩] } : St) = sL
  have h1' : (getP sL p).state = .rejected := by rw [← hL]; exact h1
  have h2' : (getP sL p).value = r := by rw [← hL]; exact h2
  have hnf : ¬((getP sL p).state = PState.fulfilled) := by rw [h1']; decide
  rw [if_neg hnf, if_pos h1', if_pos hc, h2']

/-- Running a job whose source promise is rejected, with a non-callable
rejection slot: the reason passes straight through to the downstream
`reject`. -/
theorem runJob_rejected_pass {st : St} {p : Nat} {r w : JSValue}
    {onf : CB} {dst : Nat}
    (h1 : (getP st p).state = .rejected) (h2 : (getP st p).value = r) :
    runJob ⟨p, ⟨onf, .val w, dst⟩⟩ st =
      reject dst r { st with log := st.log ++ [⟨p, ⟨onf, .val w, dst⟩⟩] } := by
  simp only [runJob]
  generalize hL : ({ st with log := st.log ++ [⟨p, ⟨onf, .val w, dst⟩⟩] } : St) = sL
  have h1' : (getP sL p).state = .rejected := by rw [← hL]; exact h1
  have h2' : (getP sL p).value = r := by rw [← hL]; exact h2
  have hnf : ¬((getP sL p).state = PState.fulfilled) := by rw [h1']; decide
  have hcv : ¬((CB.val w).callable = true) := by simp [CB.callable]
  rw [if_neg hnf, if_pos h1', if_neg hcv, h2']

/-- Running a job whose source promise is fulfilled, with a callable
fulfillment transform. -/
theorem runJob_fulfilled_fn {st : St} {p : Nat} {v : JSValue}
    {onf onr : CB} {dst : Nat}
    (h1 : (getP st p).state = .fulfilled) (h2 : (getP st p).value = v)
    (hc : onf.callable = true) :
    runJob ⟨p, ⟨onf, onr, dst⟩⟩ st =
      (match runCB onf v { st with log := st.log ++ [⟨p, ⟨onf, onr, dst⟩⟩] } with
        | (.ret x, st') => resolve dst x st'
        | (.thrown e, st') => reject dst e st') := by
  simp only [runJob]
  generalize hL : ({ st with log := st.log ++ [⟨p, ⟨onf, onr, dst⟩⟩] } : St) = sL
  have h1' : (getP sL p).state = .fulfilled := by rw [← hL]; exact h1
  have h2' : (getP sL p).value = v := by rw [← hL]; exact h2
  rw [if_pos h1', if_pos hc, h2']
  have hfz := (evolves_branch dst onf v sL).2 p (by rw [h1']; decide)
  have hs2 := hfz.1.trans h1'
  rw [if_neg (by rw [hs2]; decide)]

/-- Running a job whose source promise is fulfilled, with a
non-callable fulfillment slot: value pass-through to the downstream
`resolve`. -/
theorem runJob_fulfilled_pass {st : St} {p : Nat} {v w : JSValue}
    {onr : CB} {dst : Nat}
    (h1 : (getP st p).state = .fulfilled) (h2 : (getP st p).value = v) :
    runJob ⟨p, ⟨.val w, onr, dst⟩⟩ st =
      resolve dst v { st with log := st.log ++ [⟨p, ⟨.val w, onr, dst⟩⟩] } := by
  simp only [runJob]
  generalize hL : ({ st with log := st.log ++ [⟨p, ⟨.val w, onr, dst⟩⟩] } : St) = sL
  have h1' : (getP sL p).state = .fulfilled := by rw [← hL]; exact h1
  have h2' : (getP sL p).value = v := by rw [← hL]; exact h2
  have hcv : ¬((CB.val w).callable = true) := by simp [CB.callable]
  rw [if_pos h1', if_neg hcv, h2']
  have hfz := (quiet_resolve dst v sL).1.2 p (by rw [h1']; decide)
  have hs2 := hfz.1.trans h1'
  rw [if_neg (by rw [hs2]; decide)]

/-! ## Claim theorems -/

/-- C1 (counterexample): the claim says a `resolve` call that locks the
instance into adopting a thenable counts as the first effective call,
after which `reject` is a no-op.  In the code the instance stays
`pending` during adoption (only the local `called` flag guards the
foreign callbacks), so a later `reject` does settle it: here a thenable
whose `then` never invokes its callbacks leaves promise 0 pending, and
the subsequent `reject` moves it to rejected — the call had an effect. -/
theorem c1_adoption_lock_counterexample :
    (getP (resolve 0 (.thenable .nil none) (allocP emptySt).2) 0).state
        = .pending ∧
    (getP (reject 0 (.str "boom")
        (resolve 0 (.thenable .nil none) (allocP emptySt).2)) 0).state
        = .rejected ∧
    (getP (reject 0 (.str "boom")
        (resolve 0 (.thenable .nil none) (allocP emptySt).2)) 0).value
        = .str "boom" :=
  ⟨rfl, rfl, rfl⟩

/-- C1 (amended): every instance settles at most once — once out of
`pending`, its state and stored result never change under any further
interaction with the library (resolve/reject calls on any instance,
then/catch/finally registrations, combinators, scheduler ticks), and
`resolve`/`reject` calls on the settled instance are exact no-ops.  The
amendment drops the claim's parenthetical about thenable adoption: a
resolve call that starts adopting a thenable leaves the instance
Pending, and resolve/reject calls made while it is still Pending do
take effect (see the counterexample). -/
theorem c1_settles_at_most_once :
    ∀ (st : St) (p : Nat), (getP st p).state ≠ .pending →
      (∀ v, resolve p v st = st) ∧
      (∀ r, reject p r st = st) ∧
      (∀ acts : List Act,
        (getP (applyActs acts st) p).state = (getP st p).state ∧
        (getP (applyActs acts st) p).value = (getP st p).value) := by
  intro st p h
  exact ⟨fun v => resolve_settled v h, fun r => reject_settled r h,
    fun acts => (evolves_applyActs acts st).2 p h⟩

theorem c1_settles_at_most_once_witness :
    (getP (staticResolve (.num 1) emptySt).2 0).state ≠ .pending ∧
    resolve 0 (.num 2) (staticResolve (.num 1) emptySt).2
      = (staticResolve (.num 1) emptySt).2 ∧
    (getP (applyActs [.doReject 0 (.str "x"), .doTick]
        (staticResolve (.num 1) emptySt).2) 0).value
      = (getP (staticResolve (.num 1) emptySt).2 0).value := by
  have h : (getP (staticResolve (.num 1) emptySt).2 0).state ≠ .pending := by
    decide
  exact ⟨h, (c1_settles_at_most_once _ 0 h).1 (.num 2),
    ((c1_settles_at_most_once _ 0 h).2.2 [.doReject 0 (.str "x"), .doTick]).2⟩

/-- C2: continuation bodies never run inside the call that registers
them (`then`) or the call that settles their source (`resolve` /
`reject`) — those calls leave the ghost dispatch log untouched; a
settling `reject` enqueues the pending handlers, in registration order,
at the tail of the global FIFO microtask queue; only a scheduler `tick`
dequeues the front job and dispatches exactly that one continuation
(extending the log by it). -/
theorem c2_no_synchronous_continuations :
    (∀ src onf onr st, ((thenOp src onf onr st).2).log = st.log) ∧
    (∀ p v st, (resolve p v st).log = st.log) ∧
    (∀ p r st, (reject p r st).log = st.log) ∧
    (∀ (st : St) (p : Nat) r, (getP st p).state = .pending →
      p < st.proms.length →
      (reject p r st).queue =
        st.queue ++ (getP st p).handlers.map (fun h => Job.mk p h)) ∧
    (∀ (st : St) j rest, st.queue = j :: rest →
      tick st = runJob j { st with queue := rest }) ∧
    (∀ j st, (runJob j st).log = st.log ++ [j]) := by
  refine ⟨fun src onf onr st => (quiet_thenOp src onf onr st).2,
    fun p v st => (quiet_resolve p v st).2,
    fun p r st => (quiet_reject p r st).2,
    fun st p r hp hb => ?_,
    fun st j rest hq => tick_cons hq,
    fun j st => log_runJob j st⟩
  rw [reject_pending r hp]
  exact settle_queue _ (by simp) hb

theorem c2_no_synchronous_continuations_witness :
    ((thenOp 0 (.val .undef) (.val .undef) (allocP emptySt).2).2).log
      = ((allocP emptySt).2).log ∧
    ((thenOp 0 (.val .undef) (.val .undef) (allocP emptySt).2).2).queue = [] ∧
    (getP (thenOp 0 (.val .undef) (.val .undef) (allocP emptySt).2).2 0).state
      = .pending ∧
    (reject 0 (.str "r")
        (thenOp 0 (.val .undef) (.val .undef) (allocP emptySt).2).2).queue =
      ((thenOp 0 (.val .undef) (.val .undef) (allocP emptySt).2).2).queue ++
        (getP (thenOp 0 (.val .undef) (.val .undef) (allocP emptySt).2).2
          0).handlers.map (fun h => Job.mk 0 h) := by
  refine ⟨c2_no_synchronous_continuations.1 0 (.val .undef) (.val .undef) _,
    rfl, rfl, ?_⟩
  exact c2_no_synchronous_continuations.2.2.2.1 _ 0 (.str "r") rfl (by decide)

/-- C3 (counterexample): the claim says resolving with the instance
itself always ends Rejected with the self-resolution `TypeError`,
regardless of calls made before.  But if the instance was already
settled (here fulfilled with `1`), `resolve(self)` is a no-op and the
instance stays fulfilled. -/
theorem c3_self_resolution_counterexample :
    (getP (resolve 0 (.promise 0)
        (resolve 0 (.num 1) (allocP emptySt).2)) 0).state ≠ .rejected ∧
    (getP (resolve 0 (.promise 0)
        (resolve 0 (.num 1) (allocP emptySt).2)) 0).state = .fulfilled ∧
    (getP (resolve 0 (.promise 0)
        (resolve 0 (.num 1) (allocP emptySt).2)) 0).value = .num 1 :=
  ⟨by decide, rfl, rfl⟩

/-- C3 (amended): whenever `resolve` is invoked with the instance
itself while the instance is still Pending, the instance settles
Rejected with the self-resolution `TypeError`, and — per the
settle-once invariant — no later interaction changes that state or
reason. -/
theorem c3_self_resolution_rejects :
    ∀ (st : St) (p : Nat), (getP st p).state = .pending →
      p < st.proms.length →
      (getP (resolve p (.promise p) st) p).state = .rejected ∧
      (getP (resolve p (.promise p) st) p).value =
        .typeError "A promise cannot be resolved with itself." ∧
      (∀ acts : List Act,
        (getP (applyActs acts (resolve p (.promise p) st)) p).state
          = .rejected ∧
        (getP (applyActs acts (resolve p (.promise p) st)) p).value
          = .typeError "A promise cannot be resolved with itself.") := by
  intro st p hp hb
  have he : resolve p (.promise p) st =
      reject p (.typeError "A promise cannot be resolved with itself.") st :=
    resolve_self_eq hp
  have hg := reject_getP
    (.typeError "A promise cannot be resolved with itself.") hp hb
  rw [he]
  refine ⟨by rw [hg], by rw [hg], fun acts => ?_⟩
  have hfz := (evolves_applyActs acts _).2 p (by rw [hg]; decide)
  rw [hfz.1, hfz.2, hg]
  exact ⟨rfl, rfl⟩

theorem c3_self_resolution_rejects_witness :
    (getP (allocP emptySt).2 0).state = .pending ∧
    0 < ((allocP emptySt).2).proms.length ∧
    (getP (resolve 0 (.promise 0) (allocP emptySt).2) 0).state = .rejected ∧
    (getP (applyActs [.doResolve 0 (.num 5), .doTick]
        (resolve 0 (.promise 0) (allocP emptySt).2)) 0).value
      = .typeError "A promise cannot be resolved with itself." := by
  refine ⟨rfl, by decide,
    (c3_self_resolution_rejects (allocP emptySt).2 0 rfl (by decide)).1, ?_⟩
  exact ((c3_self_resolution_rejects (allocP emptySt).2 0 rfl (by decide)).2.2
    [.doResolve 0 (.num 5), .doTick]).2

/-- C4 (counterexample): the claim includes "an object whose `then`
member ... cannot be read" among the values that settle the instance
Fulfilled, but the code rejects with the thrown error when reading
`then` throws (promise.ts lines 70-75). -/
theorem c4_plain_fulfillment_counterexample :
    (getP (resolve 0 (.thenThrow (.str "boom")) (allocP emptySt).2) 0).state
        ≠ .fulfilled ∧
    (getP (resolve 0 (.thenThrow (.str "boom")) (allocP emptySt).2) 0).state
        = .rejected ∧
    (getP (resolve 0 (.thenThrow (.str "boom")) (allocP emptySt).2) 0).value
        = .str "boom" :=
  ⟨by decide, rfl, rfl⟩

/-- C4 (amended): for every value that is neither the instance itself,
nor another promise, nor an object/function exposing a callable `then`
(including objects with no callable `then` member), `resolve(v)` on a
Pending instance settles it Fulfilled with result exactly `v`; if
reading the `then` member throws, the instance is instead Rejected
with the thrown error. -/
theorem c4_plain_fulfillment :
    ∀ (st : St) (p : Nat), (getP st p).state = .pending →
      p < st.proms.length →
      (∀ v, isPlain v = true →
        (getP (resolve p v st) p).state = .fulfilled ∧
        (getP (resolve p v st) p).value = v) ∧
      (∀ e, (getP (resolve p (.thenThrow e) st) p).state = .rejected ∧
        (getP (resolve p (.thenThrow e) st) p).value = e) := by
  intro st p hp hb
  constructor
  · intro v hv
    have hg := resolve_plain_getP hv hp hb
    exact ⟨by rw [hg], by rw [hg]⟩
  · intro e
    have he := resolve_thenThrow_eq e hp
    have hg := reject_getP e hp hb
    rw [he]
    exact ⟨by rw [hg], by rw [hg]⟩

theorem c4_plain_fulfillment_witness :
    (getP (allocP emptySt).2 0).state = .pending ∧
    0 < ((allocP emptySt).2).proms.length ∧
    isPlain (.plainObj 7) = true ∧
    (getP (resolve 0 (.plainObj 7) (allocP emptySt).2) 0).state
      = .fulfilled ∧
    (getP (resolve 0 (.plainObj 7) (allocP emptySt).2) 0).value
      = .plainObj 7 := by
  refine ⟨rfl, by decide, rfl, ?_, ?_⟩
  · exact ((c4_plain_fulfillment (allocP emptySt).2 0 rfl (by decide)).1
      (.plainObj 7) rfl).1
  · exact ((c4_plain_fulfillment (allocP emptySt).2 0 rfl (by decide)).1
      (.plainObj 7) rfl).2

/-- C5: during thenable adoption, only the very first invocation of
either guarded callback has an effect on the adopting instance — the
first fulfill-callback invocation behaves exactly like `resolve` of its
argument and the first reject-callback invocation exactly like
`reject`, with all later invocations and a subsequent throw from the
foreign `then` discarded; if the foreign `then` throws before either
callback has fired, the instance is rejected with the thrown error; if
it neither calls back nor throws, the instance is left untouched. -/
theorem c5_adoption_first_call_wins :
    ∀ (st : St) (self : Nat), (getP st self).state = .pending →
      (∀ x rest thr,
        resolve self (.thenable (.cons true x rest) thr) st
          = resolve self x st) ∧
      (∀ x rest thr,
        resolve self (.thenable (.cons false x rest) thr) st
          = reject self x st) ∧
      (∀ e, resolve self (.thenable .nil (some e)) st = reject self e st) ∧
      resolve self (.thenable .nil none) st = st := by
  intro st self hp
  refine ⟨fun x rest thr => ?_, fun x rest thr => ?_, fun e => ?_, ?_⟩
  · rw [resolve_thenable_eq _ _ hp, runCalls_cons]
    cases thr <;> simp [runCalls_called]
  · rw [resolve_thenable_eq _ _ hp, runCalls_cons]
    cases thr <;> simp [runCalls_called]
  · rw [resolve_thenable_eq _ _ hp, runCalls_nil]
    simp
  · rw [resolve_thenable_eq _ _ hp, runCalls_nil]

theorem c5_adoption_first_call_wins_witness :
    (getP (allocP emptySt).2 0).state = .pending ∧
    resolve 0 (.thenable (.cons true (.num 4)
        (.cons false (.str "late") .nil)) (some (.str "thrown")))
      (allocP emptySt).2 = resolve 0 (.num 4) (allocP emptySt).2 ∧
    resolve 0 (.thenable .nil (some (.str "e"))) (allocP emptySt).2
      = reject 0 (.str "e") (allocP emptySt).2 := by
  refine ⟨rfl, ?_, ?_⟩
  · exact (c5_adoption_first_call_wins (allocP emptySt).2 0 rfl).1 (.num 4)
      (.cons false (.str "late") .nil) (some (.str "thrown"))
  · exact (c5_adoption_first_call_wins (allocP emptySt).2 0 rfl).2.2.1 (.str "e")

theorem runCB_fn (f : JSValue → FnRes) (arg : JSValue) (st : St) :
    runCB (.fn f) arg st = (f arg, st) := rfl

/-- C6: when a job for a rejected source promise runs, a callable
rejection transform `f` is invoked on the stored reason `r`: if it
returns `x` normally, the downstream promise's `resolve` — the
Resolution Procedure — is invoked with `x` (so for a plain `x` the
downstream instance becomes Fulfilled with `x`: error recovery); if the
slot is not callable the reason passes straight to the downstream
`reject`; if `f` throws, the downstream promise is rejected with the
thrown error.  `catch` registers its transform exactly as
`then(undefined, onrejected)`. -/
theorem c6_rejection_transform :
    ∀ (st : St) (p : Nat) (r : JSValue) (onf : CB) (dst : Nat),
      (getP st p).state = .rejected → (getP st p).value = r →
      ((∀ (f : JSValue → FnRes) (x : JSValue), f r = .ret x →
        runJob ⟨p, ⟨onf, .fn f, dst⟩⟩ st =
          resolve dst x
            { st with log := st.log ++ [⟨p, ⟨onf, .fn f, dst⟩⟩] }) ∧
      (∀ (f : JSValue → FnRes) (e : JSValue), f r = .thrown e →
        runJob ⟨p, ⟨onf, .fn f, dst⟩⟩ st =
          reject dst e
            { st with log := st.log ++ [⟨p, ⟨onf, .fn f, dst⟩⟩] }) ∧
      (∀ w, runJob ⟨p, ⟨onf, .val w, dst⟩⟩ st =
          reject dst r
            { st with log := st.log ++ [⟨p, ⟨onf, .val w, dst⟩⟩] }) ∧
      (∀ (f : JSValue → FnRes) (x : JSValue), f r = .ret x →
        isPlain x = true → (getP st dst).state = .pending →
        dst < st.proms.length →
        (getP (runJob ⟨p, ⟨onf, .fn f, dst⟩⟩ st) dst).state = .fulfilled ∧
        (getP (runJob ⟨p, ⟨onf, .fn f, dst⟩⟩ st) dst).value = x) ∧
      (∀ src onr s, catchOp src onr s = thenOp src (.val .undef) onr s)) := by
  intro st p r onf dst h1 h2
  have hret : ∀ (f : JSValue → FnRes) (x : JSValue), f r = .ret x →
      runJob ⟨p, ⟨onf, .fn f, dst⟩⟩ st =
        resolve dst x { st with log := st.log ++ [⟨p, ⟨onf, .fn f, dst⟩⟩] } := by
    intro f x hf
    have hc : (CB.fn f).callable = true := rfl
    rw [runJob_rejected_fn h1 h2 hc, runCB_fn, hf]
  refine ⟨hret, ?_, ?_, ?_, fun src onr s => rfl⟩
  · intro f e hf
    have hc : (CB.fn f).callable = true := rfl
    rw [runJob_rejected_fn h1 h2 hc, runCB_fn, hf]
  · intro w
    exact runJob_rejected_pass h1 h2
  · intro f x hf hx hdp hdb
    rw [hret f x hf]
    have hg := resolve_plain_getP (s := { st with
      log := st.log ++ [⟨p, ⟨onf, .fn f, dst⟩⟩] }) hx hdp hdb
    exact ⟨by rw [hg], by rw [hg]⟩

theorem c6_rejection_transform_witness :
    (getP (staticReject (.str "r") emptySt).2 0).state = .rejected ∧
    runJob ⟨0, ⟨.val .undef, .fn (fun _ => .ret (.num 7)), 1⟩⟩
        (staticReject (.str "r") emptySt).2 =
      resolve 1 (.num 7)
        { (staticReject (.str "r") emptySt).2 with
            log := ((staticReject (.str "r") emptySt).2).log ++
              [⟨0, ⟨.val .undef, .fn (fun _ => .ret (.num 7)), 1⟩⟩] } := by
  refine ⟨rfl, ?_⟩
  exact (c6_rejection_transform (staticReject (.str "r") emptySt).2 0
    (.str "r") (.val .undef) 1 rfl rfl).1 (fun _ => .ret (.num 7)) (.num 7) rfl

theorem staticResolve_plain {v : JSValue} (hv : isPlain v = true) (st : St) :
    staticResolve v st =
      ((allocP st).1, resolve (allocP st).1 v (allocP st).2) := by
  cases v <;> simp [isPlain] at hv <;> rfl

theorem ne_pending_of_fulfilled {o : PState} (h : o = .fulfilled) :
    o ≠ .pending := by
  rw [h]; decide

theorem ne_pending_of_rejected {o : PState} (h : o = .rejected) :
    o ≠ .pending := by
  rw [h]; decide

theorem run_nil {st : St} (hq : st.queue = []) (k : Nat) : run k st = st := by
  induction k with
  | zero => rfl
  | succ k ih => rw [run_succ, tick_nil hq, ih]

/-- C7: `MyPromise.all` on the empty sequence resolves immediately with
the empty array; on pre-fulfilled inputs it fulfills with the array of
their values in original index order (shown for three elements with
arbitrary values); when any element rejects it rejects with that
reason without waiting for — or ever reporting — a still-pending
element (whose pending state persists under any further scheduling);
and index order in the result is independent of completion order
(element 0 completing after element 1 still lands at index 0). -/
theorem c7_all_combinator :
    (∀ st : St,
      (getP (allOp [] st).2 (allOp [] st).1).state = .fulfilled ∧
      (getP (allOp [] st).2 (allOp [] st).1).value = .arr []) ∧
    (∀ v0 v1 v2 : JSValue,
      (getP (tick (tick (tick (allOp [.promise 0, .promise 1, .promise 2]
        (⟨[⟨.fulfilled, v0, []⟩, ⟨.fulfilled, v1, []⟩,
           ⟨.fulfilled, v2, []⟩], [], [], []⟩ : St)).2)))
        (allOp [.promise 0, .promise 1, .promise 2] (⟨[⟨.fulfilled, v0, []⟩, ⟨.fulfilled, v1, []⟩,
           ⟨.fulfilled, v2, []⟩], [], [], []⟩ : St)).1).state
        = .fulfilled ∧
      (getP (tick (tick (tick (allOp [.promise 0, .promise 1, .promise 2]
        (⟨[⟨.fulfilled, v0, []⟩, ⟨.fulfilled, v1, []⟩,
           ⟨.fulfilled, v2, []⟩], [], [], []⟩ : St)).2)))
        (allOp [.promise 0, .promise 1, .promise 2] (⟨[⟨.fulfilled, v0, []⟩, ⟨.fulfilled, v1, []⟩,
           ⟨.fulfilled, v2, []⟩], [], [], []⟩ : St)).1).value
        = .arr [v0, v1, v2]) ∧
    (∀ (r : JSValue) (k : Nat),
      (getP (run k (tick (tick (allOp [.promise 0, .promise 1]
        (⟨[⟨.pending, .undef, []⟩, ⟨.rejected, r, []⟩], [], [], []⟩ : St)).2)))
        (allOp [.promise 0, .promise 1] (⟨[⟨.pending, .undef, []⟩, ⟨.rejected, r, []⟩], [], [], []⟩ : St)).1).state = .rejected ∧
      (getP (run k (tick (tick (allOp [.promise 0, .promise 1]
        (⟨[⟨.pending, .undef, []⟩, ⟨.rejected, r, []⟩], [], [], []⟩ : St)).2)))
        (allOp [.promise 0, .promise 1] (⟨[⟨.pending, .undef, []⟩, ⟨.rejected, r, []⟩], [], [], []⟩ : St)).1).value = r ∧
      (getP (run k (tick (tick (allOp [.promise 0, .promise 1]
        (⟨[⟨.pending, .undef, []⟩, ⟨.rejected, r, []⟩], [], [], []⟩ : St)).2))) 0).state = .pending) ∧
    (∀ v0 v1 : JSValue, isPlain v0 = true →
      (getP (tick (tick (resolve 0 v0 (tick (allOp [.promise 0, .promise 1]
        (⟨[⟨.pending, .undef, []⟩, ⟨.fulfilled, v1, []⟩], [], [], []⟩ : St)).2))))
        (allOp [.promise 0, .promise 1] (⟨[⟨.pending, .undef, []⟩, ⟨.fulfilled, v1, []⟩], [], [], []⟩ : St)).1).state = .fulfilled ∧
      (getP (tick (tick (resolve 0 v0 (tick (allOp [.promise 0, .promise 1]
        (⟨[⟨.pending, .undef, []⟩, ⟨.fulfilled, v1, []⟩], [], [], []⟩ : St)).2))))
        (allOp [.promise 0, .promise 1] (⟨[⟨.pending, .undef, []⟩, ⟨.fulfilled, v1, []⟩], [], [], []⟩ : St)).1).value = .arr [v0, v1]) := by
  refine ⟨?_, ?_, ?_, ?_⟩
  · intro st
    have h1 : (allOp ([] : List JSValue) st).1 =
        (allocP (allocCell st 0).2).1 := rfl
    have h2 : (allOp ([] : List JSValue) st).2 =
        resolve (allocP (allocCell st 0).2).1 (.arr [])
          (allocP (allocCell st 0).2).2 := rfl
    have hp : (getP (allocP (allocCell st 0).2).2
        (allocP (allocCell st 0).2).1).state = .pending := by
      rw [getP_allocP_fresh]
    have hb : (allocP (allocCell st 0).2).1 <
        ((allocP (allocCell st 0).2).2).proms.length := by
      simp [allocP, allocCell]
    have hg := resolve_plain_getP (v := .arr []) rfl hp hb
    rw [h1, h2, hg]
    exact ⟨rfl, rfl⟩
  · intro v0 v1 v2
    have b1 : (allOp [.promise 0, .promise 1, .promise 2]
      (⟨[⟨.fulfilled, v0, []⟩,
        ⟨.fulfilled, v1, []⟩,
        ⟨.fulfilled, v2, []⟩],
       [],
       [],
       []⟩ : St)).2 =
      (⟨[⟨.fulfilled, v0, []⟩,
        ⟨.fulfilled, v1, []⟩,
        ⟨.fulfilled, v2, []⟩,
        ⟨.pending, .undef, []⟩,
        ⟨.pending, .undef, [⟨(.val .undef), (.allCatch 3), 5⟩]⟩,
        ⟨.pending, .undef, []⟩,
        ⟨.pending, .undef, [⟨(.val .undef), (.allCatch 3), 7⟩]⟩,
        ⟨.pending, .undef, []⟩,
        ⟨.pending, .undef, [⟨(.val .undef), (.allCatch 3), 9⟩]⟩,
        ⟨.pending, .undef, []⟩],
       [⟨[none, none, none], 0⟩],
       [⟨0, ⟨(.allF 0 0 3 3), (.val .undef), 4⟩⟩,
        ⟨1, ⟨(.allF 0 1 3 3), (.val .undef), 6⟩⟩,
        ⟨2, ⟨(.allF 0 2 3 3), (.val .undef), 8⟩⟩],
       []⟩ : St) := by
      simp [allOp, anyOp, allocCell, allocP, staticResolve, staticReject, thenOp,
        runHandlers, getP, setP, getCell, setCell, List.enum, List.enumFrom,
        tick, runJob, runCB, runFin, reject, resolve, runCalls, CB.callable,
        finallyOp, catchOp]
    have b2 : tick (⟨[⟨.fulfilled, v0, []⟩,
        ⟨.fulfilled, v1, []⟩,
        ⟨.fulfilled, v2, []⟩,
        ⟨.pending, .undef, []⟩,
        ⟨.pending, .undef, [⟨(.val .undef), (.allCatch 3), 5⟩]⟩,
        ⟨.pending, .undef, []⟩,
        ⟨.pending, .undef, [⟨(.val .undef), (.allCatch 3), 7⟩]⟩,
        ⟨.pending, .undef, []⟩,
        ⟨.pending, .undef, [⟨(.val .undef), (.allCatch 3), 9⟩]⟩,
        ⟨.pending, .undef, []⟩],
       [⟨[none, none, none], 0⟩],
       [⟨0, ⟨(.allF 0 0 3 3), (.val .undef), 4⟩⟩,
        ⟨1, ⟨(.allF 0 1 3 3), (.val .undef), 6⟩⟩,
        ⟨2, ⟨(.allF 0 2 3 3), (.val .undef), 8⟩⟩],
       []⟩ : St) =
      (⟨[⟨.fulfilled, v0, []⟩,
        ⟨.fulfilled, v1, []⟩,
        ⟨.fulfilled, v2, []⟩,
        ⟨.pending, .undef, []⟩,
        ⟨.fulfilled, .undef, []⟩,
        ⟨.pending, .undef, []⟩,
        ⟨.pending, .undef, [⟨(.val .undef), (.allCatch 3), 7⟩]⟩,
        ⟨.pending, .undef, []⟩,
        ⟨.pending, .undef, [⟨(.val .undef), (.allCatch 3), 9⟩]⟩,
        ⟨.pending, .undef, []⟩],
       [⟨[some v0, none, none], 1⟩],
       [⟨1, ⟨(.allF 0 1 3 3), (.val .undef), 6⟩⟩,
        ⟨2, ⟨(.allF 0 2 3 3), (.val .undef), 8⟩⟩,
        ⟨4, ⟨(.val .undef), (.allCatch 3), 5⟩⟩],
       [⟨0, ⟨(.allF 0 0 3 3), (.val .undef), 4⟩⟩]⟩ : St) := by
      simp [allOp, anyOp, allocCell, allocP, staticResolve, staticReject, thenOp,
        runHandlers, getP, setP, getCell, setCell, List.enum, List.enumFrom,
        tick, runJob, runCB, runFin, reject, resolve, runCalls, CB.callable,
        finallyOp, catchOp]
    have b3 : tick (⟨[⟨.fulfilled, v0, []⟩,
        ⟨.fulfilled, v1, []⟩,
        ⟨.fulfilled, v2, []⟩,
        ⟨.pending, .undef, []⟩,
        ⟨.fulfilled, .undef, []⟩,
        ⟨.pending, .undef, []⟩,
        ⟨.pending, .undef, [⟨(.val .undef), (.allCatch 3), 7⟩]⟩,
        ⟨.pending, .undef, []⟩,
        ⟨.pending, .undef, [⟨(.val .undef), (.allCatch 3), 9⟩]⟩,
        ⟨.pending, .undef, []⟩],
       [⟨[some v0, none, none], 1⟩],
       [⟨1, ⟨(.allF 0 1 3 3), (.val .undef), 6⟩⟩,
        ⟨2, ⟨(.allF 0 2 3 3), (.val .undef), 8⟩⟩,
        ⟨4, ⟨(.val .undef), (.allCatch 3), 5⟩⟩],
       [⟨0, ⟨(.allF 0 0 3 3), (.val .undef), 4⟩⟩]⟩ : St) =
      (⟨[⟨.fulfilled, v0, []⟩,
        ⟨.fulfilled, v1, []⟩,
        ⟨.fulfilled, v2, []⟩,
        ⟨.pending, .undef, []⟩,
        ⟨.fulfilled, .undef, []⟩,
        ⟨.pending, .undef, []⟩,
        ⟨.fulfilled, .undef, []⟩,
        ⟨.pending, .undef, []⟩,
        ⟨.pending, .undef, [⟨(.val .undef), (.allCatch 3), 9⟩]⟩,
        ⟨.pending, .undef, []⟩],
       [⟨[some v0, some v1, none], 2⟩],
       [⟨2, ⟨(.allF 0 2 3 3), (.val .undef), 8⟩⟩,
        ⟨4, ⟨(.val .undef), (.allCatch 3), 5⟩⟩,
        ⟨6, ⟨(.val .undef), (.allCatch 3), 7⟩⟩],
       [⟨0, ⟨(.allF 0 0 3 3), (.val .undef), 4⟩⟩,
        ⟨1, ⟨(.allF 0 1 3 3), (.val .undef), 6⟩⟩]⟩ : St) := by
      simp [allOp, anyOp, allocCell, allocP, staticResolve, staticReject, thenOp,
        runHandlers, getP, setP, getCell, setCell, List.enum, List.enumFrom,
        tick, runJob, runCB, runFin, reject, resolve, runCalls, CB.callable,
        finallyOp, catchOp]
    have b4 : tick (⟨[⟨.fulfilled, v0, []⟩,
        ⟨.fulfilled, v1, []⟩,
        ⟨.fulfilled, v2, []⟩,
        ⟨.pending, .undef, []⟩,
        ⟨.fulfilled, .undef, []⟩,
        ⟨.pending, .undef, []⟩,
        ⟨.fulfilled, .undef, []⟩,
        ⟨.pending, .undef, []⟩,
        ⟨.pending, .undef, [⟨(.val .undef), (.allCatch 3), 9⟩]⟩,
        ⟨.pending, .undef, []⟩],
       [⟨[some v0, some v1, none], 2⟩],
       [⟨2, ⟨(.allF 0 2 3 3), (.val .undef), 8⟩⟩,
        ⟨4, ⟨(.val .undef), (.allCatch 3), 5⟩⟩,
        ⟨6, ⟨(.val .undef), (.allCatch 3), 7⟩⟩],
       [⟨0, ⟨(.allF 0 0 3 3), (.val .undef), 4⟩⟩,
        ⟨1, ⟨(.allF 0 1 3 3), (.val .undef), 6⟩⟩]⟩ : St) =
      (⟨[⟨.fulfilled, v0, []⟩,
        ⟨.fulfilled, v1, []⟩,
        ⟨.fulfilled, v2, []⟩,
        ⟨.fulfilled, (.arr [v0, v1, v2]), []⟩,
        ⟨.fulfilled, .undef, []⟩,
        ⟨.pending, .undef, []⟩,
        ⟨.fulfilled, .undef, []⟩,
        ⟨.pending, .undef, []⟩,
        ⟨.fulfilled, .undef, []⟩,
        ⟨.pending, .undef, []⟩],
       [⟨[some v0, some v1, some v2], 3⟩],
       [⟨4, ⟨(.val .undef), (.allCatch 3), 5⟩⟩,
        ⟨6, ⟨(.val .undef), (.allCatch 3), 7⟩⟩,
        ⟨8, ⟨(.val .undef), (.allCatch 3), 9⟩⟩],
       [⟨0, ⟨(.allF 0 0 3 3), (.val .undef), 4⟩⟩,
        ⟨1, ⟨(.allF 0 1 3 3), (.val .undef), 6⟩⟩,
        ⟨2, ⟨(.allF 0 2 3 3), (.val .undef), 8⟩⟩]⟩ : St) := by
      simp [allOp, anyOp, allocCell, allocP, staticResolve, staticReject, thenOp,
        runHandlers, getP, setP, getCell, setCell, List.enum, List.enumFrom,
        tick, runJob, runCB, runFin, reject, resolve, runCalls, CB.callable,
        finallyOp, catchOp]
    have hT : (allOp [.promise 0, .promise 1, .promise 2] (⟨[⟨.fulfilled, v0, []⟩, ⟨.fulfilled, v1, []⟩,
           ⟨.fulfilled, v2, []⟩], [], [], []⟩ : St)).1 = 3 := by
      simp [allOp, allocCell, allocP]
    rw [hT, b1, b2, b3, b4]
    exact ⟨rfl, rfl⟩
  · intro r k
    have c1 : (allOp [.promise 0, .promise 1]
      (⟨[⟨.pending, .undef, []⟩,
        ⟨.rejected, r, []⟩],
       [],
       [],
       []⟩ : St)).2 =
      (⟨[⟨.pending, .undef, [⟨(.allF 0 0 2 2), (.val .undef), 3⟩]⟩,
        ⟨.rejected, r, []⟩,
        ⟨.pending, .undef, []⟩,
        ⟨.pending, .undef, [⟨(.val .undef), (.allCatch 2), 4⟩]⟩,
        ⟨.pending, .undef, []⟩,
        ⟨.pending, .undef, [⟨(.val .undef), (.allCatch 2), 6⟩]⟩,
        ⟨.pending, .undef, []⟩],
       [⟨[none, none], 0⟩],
       [⟨1, ⟨(.allF 0 1 2 2), (.val .undef), 5⟩⟩],
       []⟩ : St) := by
      simp [allOp, anyOp, allocCell, allocP, staticResolve, staticReject, thenOp,
        runHandlers, getP, setP, getCell, setCell, List.enum, List.enumFrom,
        tick, runJob, runCB, runFin, reject, resolve, runCalls, CB.callable,
        finallyOp, catchOp]
    have c2 : tick (⟨[⟨.pending, .undef, [⟨(.allF 0 0 2 2), (.val .undef), 3⟩]⟩,
        ⟨.rejected, r, []⟩,
        ⟨.pending, .undef, []⟩,
        ⟨.pending, .undef, [⟨(.val .undef), (.allCatch 2), 4⟩]⟩,
        ⟨.pending, .undef, []⟩,
        ⟨.pending, .undef, [⟨(.val .undef), (.allCatch 2), 6⟩]⟩,
        ⟨.pending, .undef, []⟩],
       [⟨[none, none], 0⟩],
       [⟨1, ⟨(.allF 0 1 2 2), (.val .undef), 5⟩⟩],
       []⟩ : St) =
      (⟨[⟨.pending, .undef, [⟨(.allF 0 0 2 2), (.val .undef), 3⟩]⟩,
        ⟨.rejected, r, []⟩,
        ⟨.pending, .undef, []⟩,
        ⟨.pending, .undef, [⟨(.val .undef), (.allCatch 2), 4⟩]⟩,
        ⟨.pending, .undef, []⟩,
        ⟨.rejected, r, []⟩,
        ⟨.pending, .undef, []⟩],
       [⟨[none, none], 0⟩],
       [⟨5, ⟨(.val .undef), (.allCatch 2), 6⟩⟩],
       [⟨1, ⟨(.allF 0 1 2 2), (.val .undef), 5⟩⟩]⟩ : St) := by
      simp [allOp, anyOp, allocCell, allocP, staticResolve, staticReject, thenOp,
        runHandlers, getP, setP, getCell, setCell, List.enum, List.enumFrom,
        tick, runJob, runCB, runFin, reject, resolve, runCalls, CB.callable,
        finallyOp, catchOp]
    have c3 : tick (⟨[⟨.pending, .undef, [⟨(.allF 0 0 2 2), (.val .undef), 3⟩]⟩,
        ⟨.rejected, r, []⟩,
        ⟨.pending, .undef, []⟩,
        ⟨.pending, .undef, [⟨(.val .undef), (.allCatch 2), 4⟩]⟩,
        ⟨.pending, .undef, []⟩,
        ⟨.rejected, r, []⟩,
        ⟨.pending, .undef, []⟩],
       [⟨[none, none], 0⟩],
       [⟨5, ⟨(.val .undef), (.allCatch 2), 6⟩⟩],
       [⟨1, ⟨(.allF 0 1 2 2), (.val .undef), 5⟩⟩]⟩ : St) =
      (⟨[⟨.pending, .undef, [⟨(.allF 0 0 2 2), (.val .undef), 3⟩]⟩,
        ⟨.rejected, r, []⟩,
        ⟨.rejected, r, []⟩,
        ⟨.pending, .undef, [⟨(.val .undef), (.allCatch 2), 4⟩]⟩,
        ⟨.pending, .undef, []⟩,
        ⟨.rejected, r, []⟩,
        ⟨.fulfilled, .undef, []⟩],
       [⟨[none, none], 0⟩],
       [],
       [⟨1, ⟨(.allF 0 1 2 2), (.val .undef), 5⟩⟩,
        ⟨5, ⟨(.val .undef), (.allCatch 2), 6⟩⟩]⟩ : St) := by
      simp [allOp, anyOp, allocCell, allocP, staticResolve, staticReject, thenOp,
        runHandlers, getP, setP, getCell, setCell, List.enum, List.enumFrom,
        tick, runJob, runCB, runFin, reject, resolve, runCalls, CB.callable,
        finallyOp, catchOp]
    have hT : (allOp [.promise 0, .promise 1] (⟨[⟨.pending, .undef, []⟩, ⟨.rejected, r, []⟩], [], [], []⟩ : St)).1 = 2 := by
      simp [allOp, allocCell, allocP]
    rw [hT, c1, c2, c3, run_nil rfl k]
    exact ⟨rfl, rfl, rfl⟩
  · intro v0 v1 h0
    have d1 : (allOp [.promise 0, .promise 1]
      (⟨[⟨.pending, .undef, []⟩,
        ⟨.fulfilled, v1, []⟩],
       [],
       [],
       []⟩ : St)).2 =
      (⟨[⟨.pending, .undef, [⟨(.allF 0 0 2 2), (.val .undef), 3⟩]⟩,
        ⟨.fulfilled, v1, []⟩,
        ⟨.pending, .undef, []⟩,
        ⟨.pending, .undef, [⟨(.val .undef), (.allCatch 2), 4⟩]⟩,
        ⟨.pending, .undef, []⟩,
        ⟨.pending, .undef, [⟨(.val .undef), (.allCatch 2), 6⟩]⟩,
        ⟨.pending, .undef, []⟩],
       [⟨[none, none], 0⟩],
       [⟨1, ⟨(.allF 0 1 2 2), (.val .undef), 5⟩⟩],
       []⟩ : St) := by
      simp [allOp, anyOp, allocCell, allocP, staticResolve, staticReject, thenOp,
        runHandlers, getP, setP, getCell, setCell, List.enum, List.enumFrom,
        tick, runJob, runCB, runFin, reject, resolve, runCalls, CB.callable,
        finallyOp, catchOp]
    have d2 : tick (⟨[⟨.pending, .undef, [⟨(.allF 0 0 2 2), (.val .undef), 3⟩]⟩,
        ⟨.fulfilled, v1, []⟩,
        ⟨.pending, .undef, []⟩,
        ⟨.pending, .undef, [⟨(.val .undef), (.allCatch 2), 4⟩]⟩,
        ⟨.pending, .undef, []⟩,
        ⟨.pending, .undef, [⟨(.val .undef), (.allCatch 2), 6⟩]⟩,
        ⟨.pending, .undef, []⟩],
       [⟨[none, none], 0⟩],
       [⟨1, ⟨(.allF 0 1 2 2), (.val .undef), 5⟩⟩],
       []⟩ : St) =
      (⟨[⟨.pending, .undef, [⟨(.allF 0 0 2 2), (.val .undef), 3⟩]⟩,
        ⟨.fulfilled, v1, []⟩,
        ⟨.pending, .undef, []⟩,
        ⟨.pending, .undef, [⟨(.val .undef), (.allCatch 2), 4⟩]⟩,
        ⟨.pending, .undef, []⟩,
        ⟨.fulfilled, .undef, []⟩,
        ⟨.pending, .undef, []⟩],
       [⟨[none, some v1], 1⟩],
       [⟨5, ⟨(.val .undef), (.allCatch 2), 6⟩⟩],
       [⟨1, ⟨(.allF 0 1 2 2), (.val .undef), 5⟩⟩]⟩ : St) := by
      simp [allOp, anyOp, allocCell, allocP, staticResolve, staticReject, thenOp,
        runHandlers, getP, setP, getCell, setCell, List.enum, List.enumFrom,
        tick, runJob, runCB, runFin, reject, resolve, runCalls, CB.callable,
        finallyOp, catchOp]
    have d3 : resolve 0 v0 (⟨[⟨.pending, .undef, [⟨(.allF 0 0 2 2), (.val .undef), 3⟩]⟩,
        ⟨.fulfilled, v1, []⟩,
        ⟨.pending, .undef, []⟩,
        ⟨.pending, .undef, [⟨(.val .undef), (.allCatch 2), 4⟩]⟩,
        ⟨.pending, .undef, []⟩,
        ⟨.fulfilled, .undef, []⟩,
        ⟨.pending, .undef, []⟩],
       [⟨[none, some v1], 1⟩],
       [⟨5, ⟨(.val .undef), (.allCatch 2), 6⟩⟩],
       [⟨1, ⟨(.allF 0 1 2 2), (.val .undef), 5⟩⟩]⟩ : St) =
      (⟨[⟨.fulfilled, v0, []⟩,
        ⟨.fulfilled, v1, []⟩,
        ⟨.pending, .undef, []⟩,
        ⟨.pending, .undef, [⟨(.val .undef), (.allCatch 2), 4⟩]⟩,
        ⟨.pending, .undef, []⟩,
        ⟨.fulfilled, .undef, []⟩,
        ⟨.pending, .undef, []⟩],
       [⟨[none, some v1], 1⟩],
       [⟨5, ⟨(.val .undef), (.allCatch 2), 6⟩⟩,
        ⟨0, ⟨(.allF 0 0 2 2), (.val .undef), 3⟩⟩],
       [⟨1, ⟨(.allF 0 1 2 2), (.val .undef), 5⟩⟩]⟩ : St) := by
      simp [allOp, anyOp, allocCell, allocP, staticResolve, staticReject, thenOp,
        runHandlers, getP, setP, getCell, setCell, List.enum, List.enumFrom,
        tick, runJob, runCB, runFin, reject, resolve, runCalls, CB.callable,
        finallyOp, catchOp,
        resolve_plain_eq h0]
    have d4 : tick (⟨[⟨.fulfilled, v0, []⟩,
        ⟨.fulfilled, v1, []⟩,
        ⟨.pending, .undef, []⟩,
        ⟨.pending, .undef, [⟨(.val .undef), (.allCatch 2), 4⟩]⟩,
        ⟨.pending, .undef, []⟩,
        ⟨.fulfilled, .undef, []⟩,
        ⟨.pending, .undef, []⟩],
       [⟨[none, some v1], 1⟩],
       [⟨5, ⟨(.val .undef), (.allCatch 2), 6⟩⟩,
        ⟨0, ⟨(.allF 0 0 2 2), (.val .undef), 3⟩⟩],
       [⟨1, ⟨(.allF 0 1 2 2), (.val .undef), 5⟩⟩]⟩ : St) =
      (⟨[⟨.fulfilled, v0, []⟩,
        ⟨.fulfilled, v1, []⟩,
        ⟨.pending, .undef, []⟩,
        ⟨.pending, .undef, [⟨(.val .undef), (.allCatch 2), 4⟩]⟩,
        ⟨.pending, .undef, []⟩,
        ⟨.fulfilled, .undef, []⟩,
        ⟨.fulfilled, .undef, []⟩],
       [⟨[none, some v1], 1⟩],
       [⟨0, ⟨(.allF 0 0 2 2), (.val .undef), 3⟩⟩],
       [⟨1, ⟨(.allF 0 1 2 2), (.val .undef), 5⟩⟩,
        ⟨5, ⟨(.val .undef), (.allCatch 2), 6⟩⟩]⟩ : St) := by
      simp [allOp, anyOp, allocCell, allocP, staticResolve, staticReject, thenOp,
        runHandlers, getP, setP, getCell, setCell, List.enum, List.enumFrom,
        tick, runJob, runCB, runFin, reject, resolve, runCalls, CB.callable,
        finallyOp, catchOp]
    have d5 : tick (⟨[⟨.fulfilled, v0, []⟩,
        ⟨.fulfilled, v1, []⟩,
        ⟨.pending, .undef, []⟩,
        ⟨.pending, .undef, [⟨(.val .undef), (.allCatch 2), 4⟩]⟩,
        ⟨.pending, .undef, []⟩,
        ⟨.fulfilled, .undef, []⟩,
        ⟨.fulfilled, .undef, []⟩],
       [⟨[none, some v1], 1⟩],
       [⟨0, ⟨(.allF 0 0 2 2), (.val .undef), 3⟩⟩],
       [⟨1, ⟨(.allF 0 1 2 2), (.val .undef), 5⟩⟩,
        ⟨5, ⟨(.val .undef), (.allCatch 2), 6⟩⟩]⟩ : St) =
      (⟨[⟨.fulfilled, v0, []⟩,
        ⟨.fulfilled, v1, []⟩,
        ⟨.fulfilled, (.arr [v0, v1]), []⟩,
        ⟨.fulfilled, .undef, []⟩,
        ⟨.pending, .undef, []⟩,
        ⟨.fulfilled, .undef, []⟩,
        ⟨.fulfilled, .undef, []⟩],
       [⟨[some v0, some v1], 2⟩],
       [⟨3, ⟨(.val .undef), (.allCatch 2), 4⟩⟩],
       [⟨1, ⟨(.allF 0 1 2 2), (.val .undef), 5⟩⟩,
        ⟨5, ⟨(.val .undef), (.allCatch 2), 6⟩⟩,
        ⟨0, ⟨(.allF 0 0 2 2), (.val .undef), 3⟩⟩]⟩ : St) := by
      simp [allOp, anyOp, allocCell, allocP, staticResolve, staticReject, thenOp,
        runHandlers, getP, setP, getCell, setCell, List.enum, List.enumFrom,
        tick, runJob, runCB, runFin, reject, resolve, runCalls, CB.callable,
        finallyOp, catchOp]
    have hT : (allOp [.promise 0, .promise 1] (⟨[⟨.pending, .undef, []⟩, ⟨.fulfilled, v1, []⟩], [], [], []⟩ : St)).1 = 2 := by
      simp [allOp, allocCell, allocP]
    rw [hT, d1, d2, d3, d4, d5]
    exact ⟨rfl, rfl⟩

theorem c7_all_combinator_witness :
    isPlain (.num 10) = true ∧
    (getP (tick (tick (resolve 0 (.num 10) (tick (allOp [.promise 0, .promise 1]
        (⟨[⟨.pending, .undef, []⟩, ⟨.fulfilled, (.num 20), []⟩],
          [], [], []⟩ : St)).2))))
      (allOp [.promise 0, .promise 1]
        (⟨[⟨.pending, .undef, []⟩, ⟨.fulfilled, (.num 20), []⟩],
          [], [], []⟩ : St)).1).value = .arr [.num 10, .num 20] := by
  exact ⟨rfl, (c7_all_combinator.2.2.2 (.num 10) (.num 20) rfl).2⟩

/-- C8: `MyPromise.any` on the empty sequence rejects immediately with
an aggregate error carrying an empty reason list; on a non-empty
sequence it fulfills with the value of the first element to fulfill
(shown with an earlier-rejecting element and two fulfilled elements:
the first fulfillment wins and persists under any further scheduling);
and it rejects only once every element has rejected — while any
rejection is still outstanding the result is still pending — with an
aggregate error carrying all per-element reasons in original index
order. -/
theorem c8_any_combinator :
    (∀ st : St,
      (getP (anyOp [] st).2 (anyOp [] st).1).state = .rejected ∧
      (getP (anyOp [] st).2 (anyOp [] st).1).value =
        .aggErr [] "Values is empty.") ∧
    (∀ (a v1 v2 : JSValue), isPlain v1 = true → ∀ k : Nat,
      (getP (run k (tick (tick (tick (anyOp [.promise 0, .promise 1, .promise 2]
        (⟨[⟨.rejected, a, []⟩, ⟨.fulfilled, v1, []⟩,
           ⟨.fulfilled, v2, []⟩], [], [], []⟩ : St)).2))))
        (anyOp [.promise 0, .promise 1, .promise 2] (⟨[⟨.rejected, a, []⟩, ⟨.fulfilled, v1, []⟩,
           ⟨.fulfilled, v2, []⟩], [], [], []⟩ : St)).1).state
        = .fulfilled ∧
      (getP (run k (tick (tick (tick (anyOp [.promise 0, .promise 1, .promise 2]
        (⟨[⟨.rejected, a, []⟩, ⟨.fulfilled, v1, []⟩,
           ⟨.fulfilled, v2, []⟩], [], [], []⟩ : St)).2))))
        (anyOp [.promise 0, .promise 1, .promise 2] (⟨[⟨.rejected, a, []⟩, ⟨.fulfilled, v1, []⟩,
           ⟨.fulfilled, v2, []⟩], [], [], []⟩ : St)).1).value = v1) ∧
    (∀ (a b : JSValue),
      (getP (tick (tick (tick (anyOp [.promise 0, .promise 1]
        (⟨[⟨.rejected, a, []⟩, ⟨.rejected, b, []⟩], [], [], []⟩ : St)).2)))
        (anyOp [.promise 0, .promise 1] (⟨[⟨.rejected, a, []⟩, ⟨.rejected, b, []⟩], [], [], []⟩ : St)).1).state = .pending ∧
      (∀ k : Nat,
        (getP (run k (tick (tick (tick (tick (anyOp [.promise 0, .promise 1]
        (⟨[⟨.rejected, a, []⟩, ⟨.rejected, b, []⟩], [], [], []⟩ : St)).2)))))
          (anyOp [.promise 0, .promise 1] (⟨[⟨.rejected, a, []⟩, ⟨.rejected, b, []⟩], [], [], []⟩ : St)).1).state = .rejected ∧
        (getP (run k (tick (tick (tick (tick (anyOp [.promise 0, .promise 1]
        (⟨[⟨.rejected, a, []⟩, ⟨.rejected, b, []⟩], [], [], []⟩ : St)).2)))))
          (anyOp [.promise 0, .promise 1] (⟨[⟨.rejected, a, []⟩, ⟨.rejected, b, []⟩], [], [], []⟩ : St)).1).value =
          .aggErr [a, b] "All promises rejected.")) := by
  refine ⟨?_, ?_, ?_⟩
  · intro st
    have h1 : (anyOp ([] : List JSValue) st).1 =
        (allocP (allocCell st 0).2).1 := rfl
    have h2 : (anyOp ([] : List JSValue) st).2 =
        reject (allocP (allocCell st 0).2).1 (.aggErr [] "Values is empty.")
          (allocP (allocCell st 0).2).2 := rfl
    have hp : (getP (allocP (allocCell st 0).2).2
        (allocP (allocCell st 0).2).1).state = .pending := by
      rw [getP_allocP_fresh]
    have hb : (allocP (allocCell st 0).2).1 <
        ((allocP (allocCell st 0).2).2).proms.length := by
      simp [allocP, allocCell]
    have hg := reject_getP (.aggErr [] "Values is empty.") hp hb
    rw [h1, h2, hg]
    exact ⟨rfl, rfl⟩
  · intro a v1 v2 h1 k
    have e1 : (anyOp [.promise 0, .promise 1, .promise 2]
      (⟨[⟨.rejected, a, []⟩,
        ⟨.fulfilled, v1, []⟩,
        ⟨.fulfilled, v2, []⟩],
       [],
       [],
       []⟩ : St)).2 =
      (⟨[⟨.rejected, a, []⟩,
        ⟨.fulfilled, v1, []⟩,
        ⟨.fulfilled, v2, []⟩,
        ⟨.pending, .undef, []⟩,
        ⟨.pending, .undef, [⟨(.val .undef), (.anyCatch 0 0 3 3), 5⟩]⟩,
        ⟨.pending, .undef, []⟩,
        ⟨.pending, .undef, [⟨(.val .undef), (.anyCatch 0 1 3 3), 7⟩]⟩,
        ⟨.pending, .undef, []⟩,
        ⟨.pending, .undef, [⟨(.val .undef), (.anyCatch 0 2 3 3), 9⟩]⟩,
        ⟨.pending, .undef, []⟩],
       [⟨[none, none, none], 0⟩],
       [⟨0, ⟨(.resolveOf 3), (.val .undef), 4⟩⟩,
        ⟨1, ⟨(.resolveOf 3), (.val .undef), 6⟩⟩,
        ⟨2, ⟨(.resolveOf 3), (.val .undef), 8⟩⟩],
       []⟩ : St) := by
      simp [allOp, anyOp, allocCell, allocP, staticResolve, staticReject, thenOp,
        runHandlers, getP, setP, getCell, setCell, List.enum, List.enumFrom,
        tick, runJob, runCB, runFin, reject, resolve, runCalls, CB.callable,
        finallyOp, catchOp, resolve_settled, reject_settled]
    have e2 : tick (⟨[⟨.rejected, a, []⟩,
        ⟨.fulfilled, v1, []⟩,
        ⟨.fulfilled, v2, []⟩,
        ⟨.pending, .undef, []⟩,
        ⟨.pending, .undef, [⟨(.val .undef), (.anyCatch 0 0 3 3), 5⟩]⟩,
        ⟨.pending, .undef, []⟩,
        ⟨.pending, .undef, [⟨(.val .undef), (.anyCatch 0 1 3 3), 7⟩]⟩,
        ⟨.pending, .undef, []⟩,
        ⟨.pending, .undef, [⟨(.val .undef), (.anyCatch 0 2 3 3), 9⟩]⟩,
        ⟨.pending, .undef, []⟩],
       [⟨[none, none, none], 0⟩],
       [⟨0, ⟨(.resolveOf 3), (.val .undef), 4⟩⟩,
        ⟨1, ⟨(.resolveOf 3), (.val .undef), 6⟩⟩,
        ⟨2, ⟨(.resolveOf 3), (.val .undef), 8⟩⟩],
       []⟩ : St) =
      (⟨[⟨.rejected, a, []⟩,
        ⟨.fulfilled, v1, []⟩,
        ⟨.fulfilled, v2, []⟩,
        ⟨.pending, .undef, []⟩,
        ⟨.rejected, a, []⟩,
        ⟨.pending, .undef, []⟩,
        ⟨.pending, .undef, [⟨(.val .undef), (.anyCatch 0 1 3 3), 7⟩]⟩,
        ⟨.pending, .undef, []⟩,
        ⟨.pending, .undef, [⟨(.val .undef), (.anyCatch 0 2 3 3), 9⟩]⟩,
        ⟨.pending, .undef, []⟩],
       [⟨[none, none, none], 0⟩],
       [⟨1, ⟨(.resolveOf 3), (.val .undef), 6⟩⟩,
        ⟨2, ⟨(.resolveOf 3), (.val .undef), 8⟩⟩,
        ⟨4, ⟨(.val .undef), (.anyCatch 0 0 3 3), 5⟩⟩],
       [⟨0, ⟨(.resolveOf 3), (.val .undef), 4⟩⟩]⟩ : St) := by
      simp [allOp, anyOp, allocCell, allocP, staticResolve, staticReject, thenOp,
        runHandlers, getP, setP, getCell, setCell, List.enum, List.enumFrom,
        tick, runJob, runCB, runFin, reject, resolve, runCalls, CB.callable,
        finallyOp, catchOp, resolve_settled, reject_settled]
    have e3 : tick (⟨[⟨.rejected, a, []⟩,
        ⟨.fulfilled, v1, []⟩,
        ⟨.fulfilled, v2, []⟩,
        ⟨.pending, .undef, []⟩,
        ⟨.rejected, a, []⟩,
        ⟨.pending, .undef, []⟩,
        ⟨.pending, .undef, [⟨(.val .undef), (.anyCatch 0 1 3 3), 7⟩]⟩,
        ⟨.pending, .undef, []⟩,
        ⟨.pending, .undef, [⟨(.val .undef), (.anyCatch 0 2 3 3), 9⟩]⟩,
        ⟨.pending, .undef, []⟩],
       [⟨[none, none, none], 0⟩],
       [⟨1, ⟨(.resolveOf 3), (.val .undef), 6⟩⟩,
        ⟨2, ⟨(.resolveOf 3), (.val .undef), 8⟩⟩,
        ⟨4, ⟨(.val .undef), (.anyCatch 0 0 3 3), 5⟩⟩],
       [⟨0, ⟨(.resolveOf 3), (.val .undef), 4⟩⟩]⟩ : St) =
      (⟨[⟨.rejected, a, []⟩,
        ⟨.fulfilled, v1, []⟩,
        ⟨.fulfilled, v2, []⟩,
        ⟨.fulfilled, v1, []⟩,
        ⟨.rejected, a, []⟩,
        ⟨.pending, .undef, []⟩,
        ⟨.fulfilled, .undef, []⟩,
        ⟨.pending, .undef, []⟩,
        ⟨.pending, .undef, [⟨(.val .undef), (.anyCatch 0 2 3 3), 9⟩]⟩,
        ⟨.pending, .undef, []⟩],
       [⟨[none, none, none], 0⟩],
       [⟨2, ⟨(.resolveOf 3), (.val .undef), 8⟩⟩,
        ⟨4, ⟨(.val .undef), (.anyCatch 0 0 3 3), 5⟩⟩,
        ⟨6, ⟨(.val .undef), (.anyCatch 0 1 3 3), 7⟩⟩],
       [⟨0, ⟨(.resolveOf 3), (.val .undef), 4⟩⟩,
        ⟨1, ⟨(.resolveOf 3), (.val .undef), 6⟩⟩]⟩ : St) := by
      simp [allOp, anyOp, allocCell, allocP, staticResolve, staticReject, thenOp,
        runHandlers, getP, setP, getCell, setCell, List.enum, List.enumFrom,
        tick, runJob, runCB, runFin, reject, resolve, runCalls, CB.callable,
        finallyOp, catchOp,
        resolve_plain_eq h1]
    have e4 : tick (⟨[⟨.rejected, a, []⟩,
        ⟨.fulfilled, v1, []⟩,
        ⟨.fulfilled, v2, []⟩,
        ⟨.fulfilled, v1, []⟩,
        ⟨.rejected, a, []⟩,
        ⟨.pending, .undef, []⟩,
        ⟨.fulfilled, .undef, []⟩,
        ⟨.pending, .undef, []⟩,
        ⟨.pending, .undef, [⟨(.val .undef), (.anyCatch 0 2 3 3), 9⟩]⟩,
        ⟨.pending, .undef, []⟩],
       [⟨[none, none, none], 0⟩],
       [⟨2, ⟨(.resolveOf 3), (.val .undef), 8⟩⟩,
        ⟨4, ⟨(.val .undef), (.anyCatch 0 0 3 3), 5⟩⟩,
        ⟨6, ⟨(.val .undef), (.anyCatch 0 1 3 3), 7⟩⟩],
       [⟨0, ⟨(.resolveOf 3), (.val .undef), 4⟩⟩,
        ⟨1, ⟨(.resolveOf 3), (.val .undef), 6⟩⟩]⟩ : St) =
      (⟨[⟨.rejected, a, []⟩,
        ⟨.fulfilled, v1, []⟩,
        ⟨.fulfilled, v2, []⟩,
        ⟨.fulfilled, v1, []⟩,
        ⟨.rejected, a, []⟩,
        ⟨.pending, .undef, []⟩,
        ⟨.fulfilled, .undef, []⟩,
        ⟨.pending, .undef, []⟩,
        ⟨.fulfilled, .undef, []⟩,
        ⟨.pending, .undef, []⟩],
       [⟨[none, none, none], 0⟩],
       [⟨4, ⟨(.val .undef), (.anyCatch 0 0 3 3), 5⟩⟩,
        ⟨6, ⟨(.val .undef), (.anyCatch 0 1 3 3), 7⟩⟩,
        ⟨8, ⟨(.val .undef), (.anyCatch 0 2 3 3), 9⟩⟩],
       [⟨0, ⟨(.resolveOf 3), (.val .undef), 4⟩⟩,
        ⟨1, ⟨(.resolveOf 3), (.val .undef), 6⟩⟩,
        ⟨2, ⟨(.resolveOf 3), (.val .undef), 8⟩⟩]⟩ : St) := by
      simp [allOp, anyOp, allocCell, allocP, staticResolve, staticReject, thenOp,
        runHandlers, getP, setP, getCell, setCell, List.enum, List.enumFrom,
        tick, runJob, runCB, runFin, reject, resolve, runCalls, CB.callable,
        finallyOp, catchOp, resolve_settled, reject_settled]
    have hT : (anyOp [.promise 0, .promise 1, .promise 2] (⟨[⟨.rejected, a, []⟩, ⟨.fulfilled, v1, []⟩,
           ⟨.fulfilled, v2, []⟩], [], [], []⟩ : St)).1 = 3 := by
      simp [anyOp, allocCell, allocP]
    rw [hT, e1, e2, e3, e4]
    have hfz := (evolves_run k
       (⟨[⟨.rejected, a, []⟩,
      ⟨.fulfilled, v1, []⟩,
      ⟨.fulfilled, v2, []⟩,
      ⟨.fulfilled, v1, []⟩,
      ⟨.rejected, a, []⟩,
      ⟨.pending, .undef, []⟩,
      ⟨.fulfilled, .undef, []⟩,
      ⟨.pending, .undef, []⟩,
      ⟨.fulfilled, .undef, []⟩,
      ⟨.pending, .undef, []⟩],
      [⟨[none, none, none], 0⟩],
      [⟨4, ⟨(.val .undef), (.anyCatch 0 0 3 3), 5⟩⟩,
      ⟨6, ⟨(.val .undef), (.anyCatch 0 1 3 3), 7⟩⟩,
      ⟨8, ⟨(.val .undef), (.anyCatch 0 2 3 3), 9⟩⟩],
      [⟨0, ⟨(.resolveOf 3), (.val .undef), 4⟩⟩,
      ⟨1, ⟨(.resolveOf 3), (.val .undef), 6⟩⟩,
      ⟨2, ⟨(.resolveOf 3), (.val .undef), 8⟩⟩]⟩ : St)).2 3 (ne_pending_of_fulfilled rfl)
    exact ⟨hfz.1.trans rfl, hfz.2.trans rfl⟩
  · intro a b
    have f1 : (anyOp [.promise 0, .promise 1]
      (⟨[⟨.rejected, a, []⟩,
        ⟨.rejected, b, []⟩],
       [],
       [],
       []⟩ : St)).2 =
      (⟨[⟨.rejected, a, []⟩,
        ⟨.rejected, b, []⟩,
        ⟨.pending, .undef, []⟩,
        ⟨.pending, .undef, [⟨(.val .undef), (.anyCatch 0 0 2 2), 4⟩]⟩,
        ⟨.pending, .undef, []⟩,
        ⟨.pending, .undef, [⟨(.val .undef), (.anyCatch 0 1 2 2), 6⟩]⟩,
        ⟨.pending, .undef, []⟩],
       [⟨[none, none], 0⟩],
       [⟨0, ⟨(.resolveOf 2), (.val .undef), 3⟩⟩,
        ⟨1, ⟨(.resolveOf 2), (.val .undef), 5⟩⟩],
       []⟩ : St) := by
      simp [allOp, anyOp, allocCell, allocP, staticResolve, staticReject, thenOp,
        runHandlers, getP, setP, getCell, setCell, List.enum, List.enumFrom,
        tick, runJob, runCB, runFin, reject, resolve, runCalls, CB.callable,
        finallyOp, catchOp, resolve_settled, reject_settled]
    have f2 : tick (⟨[⟨.rejected, a, []⟩,
        ⟨.rejected, b, []⟩,
        ⟨.pending, .undef, []⟩,
        ⟨.pending, .undef, [⟨(.val .undef), (.anyCatch 0 0 2 2), 4⟩]⟩,
        ⟨.pending, .undef, []⟩,
        ⟨.pending, .undef, [⟨(.val .undef), (.anyCatch 0 1 2 2), 6⟩]⟩,
        ⟨.pending, .undef, []⟩],
       [⟨[none, none], 0⟩],
       [⟨0, ⟨(.resolveOf 2), (.val .undef), 3⟩⟩,
        ⟨1, ⟨(.resolveOf 2), (.val .undef), 5⟩⟩],
       []⟩ : St) =
      (⟨[⟨.rejected, a, []⟩,
        ⟨.rejected, b, []⟩,
        ⟨.pending, .undef, []⟩,
        ⟨.rejected, a, []⟩,
        ⟨.pending, .undef, []⟩,
        ⟨.pending, .undef, [⟨(.val .undef), (.anyCatch 0 1 2 2), 6⟩]⟩,
        ⟨.pending, .undef, []⟩],
       [⟨[none, none], 0⟩],
       [⟨1, ⟨(.resolveOf 2), (.val .undef), 5⟩⟩,
        ⟨3, ⟨(.val .undef), (.anyCatch 0 0 2 2), 4⟩⟩],
       [⟨0, ⟨(.resolveOf 2), (.val .undef), 3⟩⟩]⟩ : St) := by
      simp [allOp, anyOp, allocCell, allocP, staticResolve, staticReject, thenOp,
        runHandlers, getP, setP, getCell, setCell, List.enum, List.enumFrom,
        tick, runJob, runCB, runFin, reject, resolve, runCalls, CB.callable,
        finallyOp, catchOp, resolve_settled, reject_settled]
    have f3 : tick (⟨[⟨.rejected, a, []⟩,
        ⟨.rejected, b, []⟩,
        ⟨.pending, .undef, []⟩,
        ⟨.rejected, a, []⟩,
        ⟨.pending, .undef, []⟩,
        ⟨.pending, .undef, [⟨(.val .undef), (.anyCatch 0 1 2 2), 6⟩]⟩,
        ⟨.pending, .undef, []⟩],
       [⟨[none, none], 0⟩],
       [⟨1, ⟨(.resolveOf 2), (.val .undef), 5⟩⟩,
        ⟨3, ⟨(.val .undef), (.anyCatch 0 0 2 2), 4⟩⟩],
       [⟨0, ⟨(.resolveOf 2), (.val .undef), 3⟩⟩]⟩ : St) =
      (⟨[⟨.rejected, a, []⟩,
        ⟨.rejected, b, []⟩,
        ⟨.pending, .undef, []⟩,
        ⟨.rejected, a, []⟩,
        ⟨.pending, .undef, []⟩,
        ⟨.rejected, b, []⟩,
        ⟨.pending, .undef, []⟩],
       [⟨[none, none], 0⟩],
       [⟨3, ⟨(.val .undef), (.anyCatch 0 0 2 2), 4⟩⟩,
        ⟨5, ⟨(.val .undef), (.anyCatch 0 1 2 2), 6⟩⟩],
       [⟨0, ⟨(.resolveOf 2), (.val .undef), 3⟩⟩,
        ⟨1, ⟨(.resolveOf 2), (.val .undef), 5⟩⟩]⟩ : St) := by
      simp [allOp, anyOp, allocCell, allocP, staticResolve, staticReject, thenOp,
        runHandlers, getP, setP, getCell, setCell, List.enum, List.enumFrom,
        tick, runJob, runCB, runFin, reject, resolve, runCalls, CB.callable,
        finallyOp, catchOp, resolve_settled, reject_settled]
    have f4 : tick (⟨[⟨.rejected, a, []⟩,
        ⟨.rejected, b, []⟩,
        ⟨.pending, .undef, []⟩,
        ⟨.rejected, a, []⟩,
        ⟨.pending, .undef, []⟩,
        ⟨.rejected, b, []⟩,
        ⟨.pending, .undef, []⟩],
       [⟨[none, none], 0⟩],
       [⟨3, ⟨(.val .undef), (.anyCatch 0 0 2 2), 4⟩⟩,
        ⟨5, ⟨(.val .undef), (.anyCatch 0 1 2 2), 6⟩⟩],
       [⟨0, ⟨(.resolveOf 2), (.val .undef), 3⟩⟩,
        ⟨1, ⟨(.resolveOf 2), (.val .undef), 5⟩⟩]⟩ : St) =
      (⟨[⟨.rejected, a, []⟩,
        ⟨.rejected, b, []⟩,
        ⟨.pending, .undef, []⟩,
        ⟨.rejected, a, []⟩,
        ⟨.fulfilled, .undef, []⟩,
        ⟨.rejected, b, []⟩,
        ⟨.pending, .undef, []⟩],
       [⟨[some a, none], 1⟩],
       [⟨5, ⟨(.val .undef), (.anyCatch 0 1 2 2), 6⟩⟩],
       [⟨0, ⟨(.resolveOf 2), (.val .undef), 3⟩⟩,
        ⟨1, ⟨(.resolveOf 2), (.val .undef), 5⟩⟩,
        ⟨3, ⟨(.val .undef), (.anyCatch 0 0 2 2), 4⟩⟩]⟩ : St) := by
      simp [allOp, anyOp, allocCell, allocP, staticResolve, staticReject, thenOp,
        runHandlers, getP, setP, getCell, setCell, List.enum, List.enumFrom,
        tick, runJob, runCB, runFin, reject, resolve, runCalls, CB.callable,
        finallyOp, catchOp, resolve_settled, reject_settled]
    have f5 : tick (⟨[⟨.rejected, a, []⟩,
        ⟨.rejected, b, []⟩,
        ⟨.pending, .undef, []⟩,
        ⟨.rejected, a, []⟩,
        ⟨.fulfilled, .undef, []⟩,
        ⟨.rejected, b, []⟩,
        ⟨.pending, .undef, []⟩],
       [⟨[some a, none], 1⟩],
       [⟨5, ⟨(.val .undef), (.anyCatch 0 1 2 2), 6⟩⟩],
       [⟨0, ⟨(.resolveOf 2), (.val .undef), 3⟩⟩,
        ⟨1, ⟨(.resolveOf 2), (.val .undef), 5⟩⟩,
        ⟨3, ⟨(.val .undef), (.anyCatch 0 0 2 2), 4⟩⟩]⟩ : St) =
      (⟨[⟨.rejected, a, []⟩,
        ⟨.rejected, b, []⟩,
        ⟨.rejected, (.aggErr [a, b] "All promises rejected."), []⟩,
        ⟨.rejected, a, []⟩,
        ⟨.fulfilled, .undef, []⟩,
        ⟨.rejected, b, []⟩,
        ⟨.fulfilled, .undef, []⟩],
       [⟨[some a, some b], 2⟩],
       [],
       [⟨0, ⟨(.resolveOf 2), (.val .undef), 3⟩⟩,
        ⟨1, ⟨(.resolveOf 2), (.val .undef), 5⟩⟩,
        ⟨3, ⟨(.val .undef), (.anyCatch 0 0 2 2), 4⟩⟩,
        ⟨5, ⟨(.val .undef), (.anyCatch 0 1 2 2), 6⟩⟩]⟩ : St) := by
      simp [allOp, anyOp, allocCell, allocP, staticResolve, staticReject, thenOp,
        runHandlers, getP, setP, getCell, setCell, List.enum, List.enumFrom,
        tick, runJob, runCB, runFin, reject, resolve, runCalls, CB.callable,
        finallyOp, catchOp, resolve_settled, reject_settled]
    have hT : (anyOp [.promise 0, .promise 1] (⟨[⟨.rejected, a, []⟩, ⟨.rejected, b, []⟩], [], [], []⟩ : St)).1 = 2 := by
      simp [anyOp, allocCell, allocP]
    constructor
    · rw [hT, f1, f2, f3, f4]
      rfl
    · intro k
      rw [hT, f1, f2, f3, f4, f5]
      have hfz := (evolves_run k
         (⟨[⟨.rejected, a, []⟩,
        ⟨.rejected, b, []⟩,
        ⟨.rejected, (.aggErr [a, b] "All promises rejected."), []⟩,
        ⟨.rejected, a, []⟩,
        ⟨.fulfilled, .undef, []⟩,
        ⟨.rejected, b, []⟩,
        ⟨.fulfilled, .undef, []⟩],
        [⟨[some a, some b], 2⟩],
        [],
        [⟨0, ⟨(.resolveOf 2), (.val .undef), 3⟩⟩,
        ⟨1, ⟨(.resolveOf 2), (.val .undef), 5⟩⟩,
        ⟨3, ⟨(.val .undef), (.anyCatch 0 0 2 2), 4⟩⟩,
        ⟨5, ⟨(.val .undef), (.anyCatch 0 1 2 2), 6⟩⟩]⟩ : St)).2 2 (ne_pending_of_rejected rfl)
      exact ⟨hfz.1.trans rfl, hfz.2.trans rfl⟩

theorem c8_any_combinator_witness :
    isPlain (.str "first") = true ∧
    (getP (run 0 (tick (tick (tick (anyOp [.promise 0, .promise 1, .promise 2]
        (⟨[⟨.rejected, (.str "no"), []⟩, ⟨.fulfilled, (.str "first"), []⟩,
           ⟨.fulfilled, (.str "second"), []⟩], [], [], []⟩ : St)).2))))
      (anyOp [.promise 0, .promise 1, .promise 2]
        (⟨[⟨.rejected, (.str "no"), []⟩, ⟨.fulfilled, (.str "first"), []⟩,
           ⟨.fulfilled, (.str "second"), []⟩], [], [], []⟩ : St)).1).value
      = .str "first" := by
  exact ⟨rfl, (c8_any_combinator.2.1 (.str "no") (.str "first")
    (.str "second") rfl 0).2⟩
/-- C9: `finally(onFinally)` runs the callback on both branches and
passes the original outcome through: on a fulfilled source the result
promise fulfills with the source value (after the callback's plain
return value is awaited); on a rejected source it rejects with the
source reason; if the callback throws, that error replaces the outcome
and the result rejects with it; if the callback returns a pending
promise the result waits — it stays pending under any further
scheduling until that promise settles — and then fulfills with the
original source value once the returned promise fulfills; if the
returned promise rejects, its reason replaces the outcome. -/
theorem c9_finally_passthrough :
    (∀ (v w : JSValue), isPlain v = true → isPlain w = true → ∀ k : Nat,
      (getP (run k (tick (tick (tick (finallyOp 0 (some (.pure (.ret w))) (⟨[⟨.fulfilled, v, []⟩], [], [], []⟩ : St)).2))))
        (finallyOp 0 (some (.pure (.ret w))) (⟨[⟨.fulfilled, v, []⟩], [], [], []⟩ : St)).1).state = .fulfilled ∧
      (getP (run k (tick (tick (tick (finallyOp 0 (some (.pure (.ret w))) (⟨[⟨.fulfilled, v, []⟩], [], [], []⟩ : St)).2))))
        (finallyOp 0 (some (.pure (.ret w))) (⟨[⟨.fulfilled, v, []⟩], [], [], []⟩ : St)).1).value = v) ∧
    (∀ (r w : JSValue), isPlain w = true → ∀ k : Nat,
      (getP (run k (tick (tick (tick (finallyOp 0 (some (.pure (.ret w))) (⟨[⟨.rejected, r, []⟩], [], [], []⟩ : St)).2))))
        (finallyOp 0 (some (.pure (.ret w))) (⟨[⟨.rejected, r, []⟩], [], [], []⟩ : St)).1).state = .rejected ∧
      (getP (run k (tick (tick (tick (finallyOp 0 (some (.pure (.ret w))) (⟨[⟨.rejected, r, []⟩], [], [], []⟩ : St)).2))))
        (finallyOp 0 (some (.pure (.ret w))) (⟨[⟨.rejected, r, []⟩], [], [], []⟩ : St)).1).value = r) ∧
    (∀ (v e : JSValue), ∀ k : Nat,
      (getP (run k (tick (finallyOp 0 (some (.pure (.thrown e))) (⟨[⟨.fulfilled, v, []⟩], [], [], []⟩ : St)).2))
        (finallyOp 0 (some (.pure (.thrown e))) (⟨[⟨.fulfilled, v, []⟩], [], [], []⟩ : St)).1).state = .rejected ∧
      (getP (run k (tick (finallyOp 0 (some (.pure (.thrown e))) (⟨[⟨.fulfilled, v, []⟩], [], [], []⟩ : St)).2))
        (finallyOp 0 (some (.pure (.thrown e))) (⟨[⟨.fulfilled, v, []⟩], [], [], []⟩ : St)).1).value = e) ∧
    (∀ (v w : JSValue), isPlain v = true → isPlain w = true →
      (∀ k : Nat,
        (getP (run k (tick (finallyOp 0 (some (.pure (.ret (.promise 1)))) (⟨[⟨.fulfilled, v, []⟩, ⟨.pending, .undef, []⟩], [], [], []⟩ : St)).2))
          (finallyOp 0 (some (.pure (.ret (.promise 1)))) (⟨[⟨.fulfilled, v, []⟩, ⟨.pending, .undef, []⟩], [], [], []⟩ : St)).1).state = .pending) ∧
      (∀ k : Nat,
        (getP (run k (tick (tick (resolve 1 w (tick (finallyOp 0 (some (.pure (.ret (.promise 1)))) (⟨[⟨.fulfilled, v, []⟩, ⟨.pending, .undef, []⟩], [], [], []⟩ : St)).2)))))
          (finallyOp 0 (some (.pure (.ret (.promise 1)))) (⟨[⟨.fulfilled, v, []⟩, ⟨.pending, .undef, []⟩], [], [], []⟩ : St)).1).state = .fulfilled ∧
        (getP (run k (tick (tick (resolve 1 w (tick (finallyOp 0 (some (.pure (.ret (.promise 1)))) (⟨[⟨.fulfilled, v, []⟩, ⟨.pending, .undef, []⟩], [], [], []⟩ : St)).2)))))
          (finallyOp 0 (some (.pure (.ret (.promise 1)))) (⟨[⟨.fulfilled, v, []⟩, ⟨.pending, .undef, []⟩], [], [], []⟩ : St)).1).value = v)) ∧
    (∀ (v e : JSValue), ∀ k : Nat,
      (getP (run k (tick (tick (reject 1 e (tick (finallyOp 0 (some (.pure (.ret (.promise 1)))) (⟨[⟨.fulfilled, v, []⟩, ⟨.pending, .undef, []⟩], [], [], []⟩ : St)).2)))))
        (finallyOp 0 (some (.pure (.ret (.promise 1)))) (⟨[⟨.fulfilled, v, []⟩, ⟨.pending, .undef, []⟩], [], [], []⟩ : St)).1).state = .rejected ∧
      (getP (run k (tick (tick (reject 1 e (tick (finallyOp 0 (some (.pure (.ret (.promise 1)))) (⟨[⟨.fulfilled, v, []⟩, ⟨.pending, .undef, []⟩], [], [], []⟩ : St)).2)))))
        (finallyOp 0 (some (.pure (.ret (.promise 1)))) (⟨[⟨.fulfilled, v, []⟩, ⟨.pending, .undef, []⟩], [], [], []⟩ : St)).1).value = e) := by
  refine ⟨?_, ?_, ?_, ?_, ?_⟩
  · intro v w hv hw k
    have g1 : (finallyOp 0 (some (.pure (.ret w)))
      (⟨[⟨.fulfilled, v, []⟩],
       [],
       [],
       []⟩ : St)).2 =
      (⟨[⟨.fulfilled, v, []⟩,
        ⟨.pending, .undef, []⟩],
       [],
       [⟨0, ⟨(.finallyFulfilled (some (.pure (.ret w)))), (.finallyRejected (some (.pure (.ret w)))), 1⟩⟩],
       []⟩ : St) := by
      simp [allOp, anyOp, allocCell, allocP, staticResolve, staticReject, thenOp,
        runHandlers, getP, setP, getCell, setCell, List.enum, List.enumFrom,
        tick, runJob, runCB, runFin, reject, resolve, runCalls, CB.callable,
        finallyOp, catchOp, resolve_settled, reject_settled]
    have g2 : tick (⟨[⟨.fulfilled, v, []⟩,
        ⟨.pending, .undef, []⟩],
       [],
       [⟨0, ⟨(.finallyFulfilled (some (.pure (.ret w)))), (.finallyRejected (some (.pure (.ret w)))), 1⟩⟩],
       []⟩ : St) =
      (⟨[⟨.fulfilled, v, []⟩,
        ⟨.pending, .undef, []⟩,
        ⟨.fulfilled, w, []⟩,
        ⟨.pending, .undef, [⟨(.resolveOf 1), (.rejectOf 1), 4⟩]⟩,
        ⟨.pending, .undef, []⟩],
       [],
       [⟨2, ⟨(.constRet v), (.val .undef), 3⟩⟩],
       [⟨0, ⟨(.finallyFulfilled (some (.pure (.ret w)))), (.finallyRejected (some (.pure (.ret w)))), 1⟩⟩]⟩ : St) := by
      simp [allOp, anyOp, allocCell, allocP, staticReject, thenOp,
        runHandlers, getP, setP, getCell, setCell, List.enum, List.enumFrom,
        tick, runJob, runCB, runFin, reject, CB.callable,
        finallyOp, catchOp, resolve_settled, reject_settled, resolve_promise_eq,
        staticResolve_plain hw, resolve_plain_eq hw]
    have g3 : tick (⟨[⟨.fulfilled, v, []⟩,
        ⟨.pending, .undef, []⟩,
        ⟨.fulfilled, w, []⟩,
        ⟨.pending, .undef, [⟨(.resolveOf 1), (.rejectOf 1), 4⟩]⟩,
        ⟨.pending, .undef, []⟩],
       [],
       [⟨2, ⟨(.constRet v), (.val .undef), 3⟩⟩],
       [⟨0, ⟨(.finallyFulfilled (some (.pure (.ret w)))), (.finallyRejected (some (.pure (.ret w)))), 1⟩⟩]⟩ : St) =
      (⟨[⟨.fulfilled, v, []⟩,
        ⟨.pending, .undef, []⟩,
        ⟨.fulfilled, w, []⟩,
        ⟨.fulfilled, v, []⟩,
        ⟨.pending, .undef, []⟩],
       [],
       [⟨3, ⟨(.resolveOf 1), (.rejectOf 1), 4⟩⟩],
       [⟨0, ⟨(.finallyFulfilled (some (.pure (.ret w)))), (.finallyRejected (some (.pure (.ret w)))), 1⟩⟩,
        ⟨2, ⟨(.constRet v), (.val .undef), 3⟩⟩]⟩ : St) := by
      simp [allOp, anyOp, allocCell, allocP, staticReject, thenOp,
        runHandlers, getP, setP, getCell, setCell, List.enum, List.enumFrom,
        tick, runJob, runCB, runFin, reject, CB.callable,
        finallyOp, catchOp, resolve_settled, reject_settled, resolve_promise_eq,
        resolve_plain_eq hv]
    have g4 : tick (⟨[⟨.fulfilled, v, []⟩,
        ⟨.pending, .undef, []⟩,
        ⟨.fulfilled, w, []⟩,
        ⟨.fulfilled, v, []⟩,
        ⟨.pending, .undef, []⟩],
       [],
       [⟨3, ⟨(.resolveOf 1), (.rejectOf 1), 4⟩⟩],
       [⟨0, ⟨(.finallyFulfilled (some (.pure (.ret w)))), (.finallyRejected (some (.pure (.ret w)))), 1⟩⟩,
        ⟨2, ⟨(.constRet v), (.val .undef), 3⟩⟩]⟩ : St) =
      (⟨[⟨.fulfilled, v, []⟩,
        ⟨.fulfilled, v, []⟩,
        ⟨.fulfilled, w, []⟩,
        ⟨.fulfilled, v, []⟩,
        ⟨.fulfilled, .undef, []⟩],
       [],
       [],
       [⟨0, ⟨(.finallyFulfilled (some (.pure (.ret w)))), (.finallyRejected (some (.pure (.ret w)))), 1⟩⟩,
        ⟨2, ⟨(.constRet v), (.val .undef), 3⟩⟩,
        ⟨3, ⟨(.resolveOf 1), (.rejectOf 1), 4⟩⟩]⟩ : St) := by
      simp [allOp, anyOp, allocCell, allocP, staticReject, thenOp,
        runHandlers, getP, setP, getCell, setCell, List.enum, List.enumFrom,
        tick, runJob, runCB, runFin, reject, CB.callable,
        finallyOp, catchOp, resolve_settled, reject_settled, resolve_promise_eq,
        resolve_plain_eq hv, resolve_plain_eq (v := JSValue.undef) rfl]
    have hT : (finallyOp 0 (some (.pure (.ret w))) (⟨[⟨.fulfilled, v, []⟩], [], [], []⟩ : St)).1 = 1 := by
      simp [finallyOp, thenOp, allocP, getP, setP, runHandlers]
    have hrun : run k
         (⟨[⟨.fulfilled, v, []⟩,
        ⟨.fulfilled, v, []⟩,
        ⟨.fulfilled, w, []⟩,
        ⟨.fulfilled, v, []⟩,
        ⟨.fulfilled, .undef, []⟩],
        [],
        [],
        [⟨0, ⟨(.finallyFulfilled (some (.pure (.ret w)))), (.finallyRejected (some (.pure (.ret w)))), 1⟩⟩,
        ⟨2, ⟨(.constRet v), (.val .undef), 3⟩⟩,
        ⟨3, ⟨(.resolveOf 1), (.rejectOf 1), 4⟩⟩]⟩ : St) =
         (⟨[⟨.fulfilled, v, []⟩,
        ⟨.fulfilled, v, []⟩,
        ⟨.fulfilled, w, []⟩,
        ⟨.fulfilled, v, []⟩,
        ⟨.fulfilled, .undef, []⟩],
        [],
        [],
        [⟨0, ⟨(.finallyFulfilled (some (.pure (.ret w)))), (.finallyRejected (some (.pure (.ret w)))), 1⟩⟩,
        ⟨2, ⟨(.constRet v), (.val .undef), 3⟩⟩,
        ⟨3, ⟨(.resolveOf 1), (.rejectOf 1), 4⟩⟩]⟩ : St) := run_nil rfl k
    rw [hT, g1, g2, g3, g4, hrun]
    exact ⟨rfl, rfl⟩
  · intro r w hw k
    have h1 : (finallyOp 0 (some (.pure (.ret w)))
      (⟨[⟨.rejected, r, []⟩],
       [],
       [],
       []⟩ : St)).2 =
      (⟨[⟨.rejected, r, []⟩,
        ⟨.pending, .undef, []⟩],
       [],
       [⟨0, ⟨(.finallyFulfilled (some (.pure (.ret w)))), (.finallyRejected (some (.pure (.ret w)))), 1⟩⟩],
       []⟩ : St) := by
      simp [allOp, anyOp, allocCell, allocP, staticResolve, staticReject, thenOp,
        runHandlers, getP, setP, getCell, setCell, List.enum, List.enumFrom,
        tick, runJob, runCB, runFin, reject, resolve, runCalls, CB.callable,
        finallyOp, catchOp, resolve_settled, reject_settled]
    have h2 : tick (⟨[⟨.rejected, r, []⟩,
        ⟨.pending, .undef, []⟩],
       [],
       [⟨0, ⟨(.finallyFulfilled (some (.pure (.ret w)))), (.finallyRejected (some (.pure (.ret w)))), 1⟩⟩],
       []⟩ : St) =
      (⟨[⟨.rejected, r, []⟩,
        ⟨.pending, .undef, []⟩,
        ⟨.fulfilled, w, []⟩,
        ⟨.pending, .undef, [⟨(.resolveOf 1), (.rejectOf 1), 4⟩]⟩,
        ⟨.pending, .undef, []⟩],
       [],
       [⟨2, ⟨(.constThrow r), (.val .undef), 3⟩⟩],
       [⟨0, ⟨(.finallyFulfilled (some (.pure (.ret w)))), (.finallyRejected (some (.pure (.ret w)))), 1⟩⟩]⟩ : St) := by
      simp [allOp, anyOp, allocCell, allocP, staticReject, thenOp,
        runHandlers, getP, setP, getCell, setCell, List.enum, List.enumFrom,
        tick, runJob, runCB, runFin, reject, CB.callable,
        finallyOp, catchOp, resolve_settled, reject_settled, resolve_promise_eq,
        staticResolve_plain hw, resolve_plain_eq hw]
    have h3 : tick (⟨[⟨.rejected, r, []⟩,
        ⟨.pending, .undef, []⟩,
        ⟨.fulfilled, w, []⟩,
        ⟨.pending, .undef, [⟨(.resolveOf 1), (.rejectOf 1), 4⟩]⟩,
        ⟨.pending, .undef, []⟩],
       [],
       [⟨2, ⟨(.constThrow r), (.val .undef), 3⟩⟩],
       [⟨0, ⟨(.finallyFulfilled (some (.pure (.ret w)))), (.finallyRejected (some (.pure (.ret w)))), 1⟩⟩]⟩ : St) =
      (⟨[⟨.rejected, r, []⟩,
        ⟨.pending, .undef, []⟩,
        ⟨.fulfilled, w, []⟩,
        ⟨.rejected, r, []⟩,
        ⟨.pending, .undef, []⟩],
       [],
       [⟨3, ⟨(.resolveOf 1), (.rejectOf 1), 4⟩⟩],
       [⟨0, ⟨(.finallyFulfilled (some (.pure (.ret w)))), (.finallyRejected (some (.pure (.ret w)))), 1⟩⟩,
        ⟨2, ⟨(.constThrow r), (.val .undef), 3⟩⟩]⟩ : St) := by
      simp [allOp, anyOp, allocCell, allocP, staticResolve, staticReject, thenOp,
        runHandlers, getP, setP, getCell, setCell, List.enum, List.enumFrom,
        tick, runJob, runCB, runFin, reject, resolve, runCalls, CB.callable,
        finallyOp, catchOp, resolve_settled, reject_settled]
    have h4 : tick (⟨[⟨.rejected, r, []⟩,
        ⟨.pending, .undef, []⟩,
        ⟨.fulfilled, w, []⟩,
        ⟨.rejected, r, []⟩,
        ⟨.pending, .undef, []⟩],
       [],
       [⟨3, ⟨(.resolveOf 1), (.rejectOf 1), 4⟩⟩],
       [⟨0, ⟨(.finallyFulfilled (some (.pure (.ret w)))), (.finallyRejected (some (.pure (.ret w)))), 1⟩⟩,
        ⟨2, ⟨(.constThrow r), (.val .undef), 3⟩⟩]⟩ : St) =
      (⟨[⟨.rejected, r, []⟩,
        ⟨.rejected, r, []⟩,
        ⟨.fulfilled, w, []⟩,
        ⟨.rejected, r, []⟩,
        ⟨.fulfilled, .undef, []⟩],
       [],
       [],
       [⟨0, ⟨(.finallyFulfilled (some (.pure (.ret w)))), (.finallyRejected (some (.pure (.ret w)))), 1⟩⟩,
        ⟨2, ⟨(.constThrow r), (.val .undef), 3⟩⟩,
        ⟨3, ⟨(.resolveOf 1), (.rejectOf 1), 4⟩⟩]⟩ : St) := by
      simp [allOp, anyOp, allocCell, allocP, staticResolve, staticReject, thenOp,
        runHandlers, getP, setP, getCell, setCell, List.enum, List.enumFrom,
        tick, runJob, runCB, runFin, reject, resolve, runCalls, CB.callable,
        finallyOp, catchOp, resolve_settled, reject_settled]
    have hT : (finallyOp 0 (some (.pure (.ret w))) (⟨[⟨.rejected, r, []⟩], [], [], []⟩ : St)).1 = 1 := by
      simp [finallyOp, thenOp, allocP, getP, setP, runHandlers]
    have hrun : run k
         (⟨[⟨.rejected, r, []⟩,
        ⟨.rejected, r, []⟩,
        ⟨.fulfilled, w, []⟩,
        ⟨.rejected, r, []⟩,
        ⟨.fulfilled, .undef, []⟩],
        [],
        [],
        [⟨0, ⟨(.finallyFulfilled (some (.pure (.ret w)))), (.finallyRejected (some (.pure (.ret w)))), 1⟩⟩,
        ⟨2, ⟨(.constThrow r), (.val .undef), 3⟩⟩,
        ⟨3, ⟨(.resolveOf 1), (.rejectOf 1), 4⟩⟩]⟩ : St) =
         (⟨[⟨.rejected, r, []⟩,
        ⟨.rejected, r, []⟩,
        ⟨.fulfilled, w, []⟩,
        ⟨.rejected, r, []⟩,
        ⟨.fulfilled, .undef, []⟩],
        [],
        [],
        [⟨0, ⟨(.finallyFulfilled (some (.pure (.ret w)))), (.finallyRejected (some (.pure (.ret w)))), 1⟩⟩,
        ⟨2, ⟨(.constThrow r), (.val .undef), 3⟩⟩,
        ⟨3, ⟨(.resolveOf 1), (.rejectOf 1), 4⟩⟩]⟩ : St) := run_nil rfl k
    rw [hT, h1, h2, h3, h4, hrun]
    exact ⟨rfl, rfl⟩
  · intro v e k
    have i1 : (finallyOp 0 (some (.pure (.thrown e)))
      (⟨[⟨.fulfilled, v, []⟩],
       [],
       [],
       []⟩ : St)).2 =
      (⟨[⟨.fulfilled, v, []⟩,
        ⟨.pending, .undef, []⟩],
       [],
       [⟨0, ⟨(.finallyFulfilled (some (.pure (.thrown e)))), (.finallyRejected (some (.pure (.thrown e)))), 1⟩⟩],
       []⟩ : St) := by
      simp [allOp, anyOp, allocCell, allocP, staticResolve, staticReject, thenOp,
        runHandlers, getP, setP, getCell, setCell, List.enum, List.enumFrom,
        tick, runJob, runCB, runFin, reject, resolve, runCalls, CB.callable,
        finallyOp, catchOp, resolve_settled, reject_settled]
    have i2 : tick (⟨[⟨.fulfilled, v, []⟩,
        ⟨.pending, .undef, []⟩],
       [],
       [⟨0, ⟨(.finallyFulfilled (some (.pure (.thrown e)))), (.finallyRejected (some (.pure (.thrown e)))), 1⟩⟩],
       []⟩ : St) =
      (⟨[⟨.fulfilled, v, []⟩,
        ⟨.rejected, e, []⟩],
       [],
       [],
       [⟨0, ⟨(.finallyFulfilled (some (.pure (.thrown e)))), (.finallyRejected (some (.pure (.thrown e)))), 1⟩⟩]⟩ : St) := by
      simp [allOp, anyOp, allocCell, allocP, staticResolve, staticReject, thenOp,
        runHandlers, getP, setP, getCell, setCell, List.enum, List.enumFrom,
        tick, runJob, runCB, runFin, reject, resolve, runCalls, CB.callable,
        finallyOp, catchOp, resolve_settled, reject_settled]
    have hT : (finallyOp 0 (some (.pure (.thrown e))) (⟨[⟨.fulfilled, v, []⟩], [], [], []⟩ : St)).1 = 1 := by
      simp [finallyOp, thenOp, allocP, getP, setP, runHandlers]
    have hrun : run k
         (⟨[⟨.fulfilled, v, []⟩,
        ⟨.rejected, e, []⟩],
        [],
        [],
        [⟨0, ⟨(.finallyFulfilled (some (.pure (.thrown e)))), (.finallyRejected (some (.pure (.thrown e)))), 1⟩⟩]⟩ : St) =
         (⟨[⟨.fulfilled, v, []⟩,
        ⟨.rejected, e, []⟩],
        [],
        [],
        [⟨0, ⟨(.finallyFulfilled (some (.pure (.thrown e)))), (.finallyRejected (some (.pure (.thrown e)))), 1⟩⟩]⟩ : St) := run_nil rfl k
    rw [hT, i1, i2, hrun]
    exact ⟨rfl, rfl⟩
  · intro v w hv hw
    have j1 : (finallyOp 0 (some (.pure (.ret (.promise 1))))
      (⟨[⟨.fulfilled, v, []⟩,
        ⟨.pending, .undef, []⟩],
       [],
       [],
       []⟩ : St)).2 =
      (⟨[⟨.fulfilled, v, []⟩,
        ⟨.pending, .undef, []⟩,
        ⟨.pending, .undef, []⟩],
       [],
       [⟨0, ⟨(.finallyFulfilled (some (.pure (.ret (.promise 1))))), (.finallyRejected (some (.pure (.ret (.promise 1))))), 2⟩⟩],
       []⟩ : St) := by
      simp [allOp, anyOp, allocCell, allocP, staticResolve, staticReject, thenOp,
        runHandlers, getP, setP, getCell, setCell, List.enum, List.enumFrom,
        tick, runJob, runCB, runFin, reject, resolve, runCalls, CB.callable,
        finallyOp, catchOp, resolve_settled, reject_settled]
    have j2 : tick (⟨[⟨.fulfilled, v, []⟩,
        ⟨.pending, .undef, []⟩,
        ⟨.pending, .undef, []⟩],
       [],
       [⟨0, ⟨(.finallyFulfilled (some (.pure (.ret (.promise 1))))), (.finallyRejected (some (.pure (.ret (.promise 1))))), 2⟩⟩],
       []⟩ : St) =
      (⟨[⟨.fulfilled, v, []⟩,
        ⟨.pending, .undef, [⟨(.constRet v), (.val .undef), 3⟩]⟩,
        ⟨.pending, .undef, []⟩,
        ⟨.pending, .undef, [⟨(.resolveOf 2), (.rejectOf 2), 4⟩]⟩,
        ⟨.pending, .undef, []⟩],
       [],
       [],
       [⟨0, ⟨(.finallyFulfilled (some (.pure (.ret (.promise 1))))), (.finallyRejected (some (.pure (.ret (.promise 1))))), 2⟩⟩]⟩ : St) := by
      simp [allOp, anyOp, allocCell, allocP, staticResolve, staticReject, thenOp,
        runHandlers, getP, setP, getCell, setCell, List.enum, List.enumFrom,
        tick, runJob, runCB, runFin, reject, resolve, runCalls, CB.callable,
        finallyOp, catchOp, resolve_settled, reject_settled]
    have j3 : resolve 1 w (⟨[⟨.fulfilled, v, []⟩,
        ⟨.pending, .undef, [⟨(.constRet v), (.val .undef), 3⟩]⟩,
        ⟨.pending, .undef, []⟩,
        ⟨.pending, .undef, [⟨(.resolveOf 2), (.rejectOf 2), 4⟩]⟩,
        ⟨.pending, .undef, []⟩],
       [],
       [],
       [⟨0, ⟨(.finallyFulfilled (some (.pure (.ret (.promise 1))))), (.finallyRejected (some (.pure (.ret (.promise 1))))), 2⟩⟩]⟩ : St) =
      (⟨[⟨.fulfilled, v, []⟩,
        ⟨.fulfilled, w, []⟩,
        ⟨.pending, .undef, []⟩,
        ⟨.pending, .undef, [⟨(.resolveOf 2), (.rejectOf 2), 4⟩]⟩,
        ⟨.pending, .undef, []⟩],
       [],
       [⟨1, ⟨(.constRet v), (.val .undef), 3⟩⟩],
       [⟨0, ⟨(.finallyFulfilled (some (.pure (.ret (.promise 1))))), (.finallyRejected (some (.pure (.ret (.promise 1))))), 2⟩⟩]⟩ : St) := by
      simp [allOp, anyOp, allocCell, allocP, staticReject, thenOp,
        runHandlers, getP, setP, getCell, setCell, List.enum, List.enumFrom,
        tick, runJob, runCB, runFin, reject, CB.callable,
        finallyOp, catchOp, resolve_settled, reject_settled, resolve_promise_eq,
        resolve_plain_eq hw]
    have j4 : tick (⟨[⟨.fulfilled, v, []⟩,
        ⟨.fulfilled, w, []⟩,
        ⟨.pending, .undef, []⟩,
        ⟨.pending, .undef, [⟨(.resolveOf 2), (.rejectOf 2), 4⟩]⟩,
        ⟨.pending, .undef, []⟩],
       [],
       [⟨1, ⟨(.constRet v), (.val .undef), 3⟩⟩],
       [⟨0, ⟨(.finallyFulfilled (some (.pure (.ret (.promise 1))))), (.finallyRejected (some (.pure (.ret (.promise 1))))), 2⟩⟩]⟩ : St) =
      (⟨[⟨.fulfilled, v, []⟩,
        ⟨.fulfilled, w, []⟩,
        ⟨.pending, .undef, []⟩,
        ⟨.fulfilled, v, []⟩,
        ⟨.pending, .undef, []⟩],
       [],
       [⟨3, ⟨(.resolveOf 2), (.rejectOf 2), 4⟩⟩],
       [⟨0, ⟨(.finallyFulfilled (some (.pure (.ret (.promise 1))))), (.finallyRejected (some (.pure (.ret (.promise 1))))), 2⟩⟩,
        ⟨1, ⟨(.constRet v), (.val .undef), 3⟩⟩]⟩ : St) := by
      simp [allOp, anyOp, allocCell, allocP, staticReject, thenOp,
        runHandlers, getP, setP, getCell, setCell, List.enum, List.enumFrom,
        tick, runJob, runCB, runFin, reject, CB.callable,
        finallyOp, catchOp, resolve_settled, reject_settled, resolve_promise_eq,
        resolve_plain_eq hv]
    have j5 : tick (⟨[⟨.fulfilled, v, []⟩,
        ⟨.fulfilled, w, []⟩,
        ⟨.pending, .undef, []⟩,
        ⟨.fulfilled, v, []⟩,
        ⟨.pending, .undef, []⟩],
       [],
       [⟨3, ⟨(.resolveOf 2), (.rejectOf 2), 4⟩⟩],
       [⟨0, ⟨(.finallyFulfilled (some (.pure (.ret (.promise 1))))), (.finallyRejected (some (.pure (.ret (.promise 1))))), 2⟩⟩,
        ⟨1, ⟨(.constRet v), (.val .undef), 3⟩⟩]⟩ : St) =
      (⟨[⟨.fulfilled, v, []⟩,
        ⟨.fulfilled, w, []⟩,
        ⟨.fulfilled, v, []⟩,
        ⟨.fulfilled, v, []⟩,
        ⟨.fulfilled, .undef, []⟩],
       [],
       [],
       [⟨0, ⟨(.finallyFulfilled (some (.pure (.ret (.promise 1))))), (.finallyRejected (some (.pure (.ret (.promise 1))))), 2⟩⟩,
        ⟨1, ⟨(.constRet v), (.val .undef), 3⟩⟩,
        ⟨3, ⟨(.resolveOf 2), (.rejectOf 2), 4⟩⟩]⟩ : St) := by
      simp [allOp, anyOp, allocCell, allocP, staticReject, thenOp,
        runHandlers, getP, setP, getCell, setCell, List.enum, List.enumFrom,
        tick, runJob, runCB, runFin, reject, CB.callable,
        finallyOp, catchOp, resolve_settled, reject_settled, resolve_promise_eq,
        resolve_plain_eq hv, resolve_plain_eq (v := JSValue.undef) rfl]
    have hT : (finallyOp 0 (some (.pure (.ret (.promise 1)))) (⟨[⟨.fulfilled, v, []⟩, ⟨.pending, .undef, []⟩], [], [], []⟩ : St)).1 = 2 := by
      simp [finallyOp, thenOp, allocP, getP, setP, runHandlers]
    constructor
    · intro k
      have hrun : run k
           (⟨[⟨.fulfilled, v, []⟩,
          ⟨.pending, .undef, [⟨(.constRet v), (.val .undef), 3⟩]⟩,
          ⟨.pending, .undef, []⟩,
          ⟨.pending, .undef, [⟨(.resolveOf 2), (.rejectOf 2), 4⟩]⟩,
          ⟨.pending, .undef, []⟩],
          [],
          [],
          [⟨0, ⟨(.finallyFulfilled (some (.pure (.ret (.promise 1))))), (.finallyRejected (some (.pure (.ret (.promise 1))))), 2⟩⟩]⟩ : St) =
           (⟨[⟨.fulfilled, v, []⟩,
          ⟨.pending, .undef, [⟨(.constRet v), (.val .undef), 3⟩]⟩,
          ⟨.pending, .undef, []⟩,
          ⟨.pending, .undef, [⟨(.resolveOf 2), (.rejectOf 2), 4⟩]⟩,
          ⟨.pending, .undef, []⟩],
          [],
          [],
          [⟨0, ⟨(.finallyFulfilled (some (.pure (.ret (.promise 1))))), (.finallyRejected (some (.pure (.ret (.promise 1))))), 2⟩⟩]⟩ : St) := run_nil rfl k
      rw [hT, j1, j2, hrun]
      rfl
    · intro k
      have hrun : run k
           (⟨[⟨.fulfilled, v, []⟩,
          ⟨.fulfilled, w, []⟩,
          ⟨.fulfilled, v, []⟩,
          ⟨.fulfilled, v, []⟩,
          ⟨.fulfilled, .undef, []⟩],
          [],
          [],
          [⟨0, ⟨(.finallyFulfilled (some (.pure (.ret (.promise 1))))), (.finallyRejected (some (.pure (.ret (.promise 1))))), 2⟩⟩,
          ⟨1, ⟨(.constRet v), (.val .undef), 3⟩⟩,
          ⟨3, ⟨(.resolveOf 2), (.rejectOf 2), 4⟩⟩]⟩ : St) =
           (⟨[⟨.fulfilled, v, []⟩,
          ⟨.fulfilled, w, []⟩,
          ⟨.fulfilled, v, []⟩,
          ⟨.fulfilled, v, []⟩,
          ⟨.fulfilled, .undef, []⟩],
          [],
          [],
          [⟨0, ⟨(.finallyFulfilled (some (.pure (.ret (.promise 1))))), (.finallyRejected (some (.pure (.ret (.promise 1))))), 2⟩⟩,
          ⟨1, ⟨(.constRet v), (.val .undef), 3⟩⟩,
          ⟨3, ⟨(.resolveOf 2), (.rejectOf 2), 4⟩⟩]⟩ : St) := run_nil rfl k
      rw [hT, j1, j2, j3, j4, j5, hrun]
      exact ⟨rfl, rfl⟩
  · intro v e k
    have k1 : (finallyOp 0 (some (.pure (.ret (.promise 1))))
      (⟨[⟨.fulfilled, v, []⟩,
        ⟨.pending, .undef, []⟩],
       [],
       [],
       []⟩ : St)).2 =
      (⟨[⟨.fulfilled, v, []⟩,
        ⟨.pending, .undef, []⟩,
        ⟨.pending, .undef, []⟩],
       [],
       [⟨0, ⟨(.finallyFulfilled (some (.pure (.ret (.promise 1))))), (.finallyRejected (some (.pure (.ret (.promise 1))))), 2⟩⟩],
       []⟩ : St) := by
      simp [allOp, anyOp, allocCell, allocP, staticResolve, staticReject, thenOp,
        runHandlers, getP, setP, getCell, setCell, List.enum, List.enumFrom,
        tick, runJob, runCB, runFin, reject, resolve, runCalls, CB.callable,
        finallyOp, catchOp, resolve_settled, reject_settled]
    have k2 : tick (⟨[⟨.fulfilled, v, []⟩,
        ⟨.pending, .undef, []⟩,
        ⟨.pending, .undef, []⟩],
       [],
       [⟨0, ⟨(.finallyFulfilled (some (.pure (.ret (.promise 1))))), (.finallyRejected (some (.pure (.ret (.promise 1))))), 2⟩⟩],
       []⟩ : St) =
      (⟨[⟨.fulfilled, v, []⟩,
        ⟨.pending, .undef, [⟨(.constRet v), (.val .undef), 3⟩]⟩,
        ⟨.pending, .undef, []⟩,
        ⟨.pending, .undef, [⟨(.resolveOf 2), (.rejectOf 2), 4⟩]⟩,
        ⟨.pending, .undef, []⟩],
       [],
       [],
       [⟨0, ⟨(.finallyFulfilled (some (.pure (.ret (.promise 1))))), (.finallyRejected (some (.pure (.ret (.promise 1))))), 2⟩⟩]⟩ : St) := by
      simp [allOp, anyOp, allocCell, allocP, staticResolve, staticReject, thenOp,
        runHandlers, getP, setP, getCell, setCell, List.enum, List.enumFrom,
        tick, runJob, runCB, runFin, reject, resolve, runCalls, CB.callable,
        finallyOp, catchOp, resolve_settled, reject_settled]
    have k3 : reject 1 e (⟨[⟨.fulfilled, v, []⟩,
        ⟨.pending, .undef, [⟨(.constRet v), (.val .undef), 3⟩]⟩,
        ⟨.pending, .undef, []⟩,
        ⟨.pending, .undef, [⟨(.resolveOf 2), (.rejectOf 2), 4⟩]⟩,
        ⟨.pending, .undef, []⟩],
       [],
       [],
       [⟨0, ⟨(.finallyFulfilled (some (.pure (.ret (.promise 1))))), (.finallyRejected (some (.pure (.ret (.promise 1))))), 2⟩⟩]⟩ : St) =
      (⟨[⟨.fulfilled, v, []⟩,
        ⟨.rejected, e, []⟩,
        ⟨.pending, .undef, []⟩,
        ⟨.pending, .undef, [⟨(.resolveOf 2), (.rejectOf 2), 4⟩]⟩,
        ⟨.pending, .undef, []⟩],
       [],
       [⟨1, ⟨(.constRet v), (.val .undef), 3⟩⟩],
       [⟨0, ⟨(.finallyFulfilled (some (.pure (.ret (.promise 1))))), (.finallyRejected (some (.pure (.ret (.promise 1))))), 2⟩⟩]⟩ : St) := by
      simp [allOp, anyOp, allocCell, allocP, staticResolve, staticReject, thenOp,
        runHandlers, getP, setP, getCell, setCell, List.enum, List.enumFrom,
        tick, runJob, runCB, runFin, reject, resolve, runCalls, CB.callable,
        finallyOp, catchOp, resolve_settled, reject_settled]
    have k4 : tick (⟨[⟨.fulfilled, v, []⟩,
        ⟨.rejected, e, []⟩,
        ⟨.pending, .undef, []⟩,
        ⟨.pending, .undef, [⟨(.resolveOf 2), (.rejectOf 2), 4⟩]⟩,
        ⟨.pending, .undef, []⟩],
       [],
       [⟨1, ⟨(.constRet v), (.val .undef), 3⟩⟩],
       [⟨0, ⟨(.finallyFulfilled (some (.pure (.ret (.promise 1))))), (.finallyRejected (some (.pure (.ret (.promise 1))))), 2⟩⟩]⟩ : St) =
      (⟨[⟨.fulfilled, v, []⟩,
        ⟨.rejected, e, []⟩,
        ⟨.pending, .undef, []⟩,
        ⟨.rejected, e, []⟩,
        ⟨.pending, .undef, []⟩],
       [],
       [⟨3, ⟨(.resolveOf 2), (.rejectOf 2), 4⟩⟩],
       [⟨0, ⟨(.finallyFulfilled (some (.pure (.ret (.promise 1))))), (.finallyRejected (some (.pure (.ret (.promise 1))))), 2⟩⟩,
        ⟨1, ⟨(.constRet v), (.val .undef), 3⟩⟩]⟩ : St) := by
      simp [allOp, anyOp, allocCell, allocP, staticResolve, staticReject, thenOp,
        runHandlers, getP, setP, getCell, setCell, List.enum, List.enumFrom,
        tick, runJob, runCB, runFin, reject, resolve, runCalls, CB.callable,
        finallyOp, catchOp, resolve_settled, reject_settled]
    have k5 : tick (⟨[⟨.fulfilled, v, []⟩,
        ⟨.rejected, e, []⟩,
        ⟨.pending, .undef, []⟩,
        ⟨.rejected, e, []⟩,
        ⟨.pending, .undef, []⟩],
       [],
       [⟨3, ⟨(.resolveOf 2), (.rejectOf 2), 4⟩⟩],
       [⟨0, ⟨(.finallyFulfilled (some (.pure (.ret (.promise 1))))), (.finallyRejected (some (.pure (.ret (.promise 1))))), 2⟩⟩,
        ⟨1, ⟨(.constRet v), (.val .undef), 3⟩⟩]⟩ : St) =
      (⟨[⟨.fulfilled, v, []⟩,
        ⟨.rejected, e, []⟩,
        ⟨.rejected, e, []⟩,
        ⟨.rejected, e, []⟩,
        ⟨.fulfilled, .undef, []⟩],
       [],
       [],
       [⟨0, ⟨(.finallyFulfilled (some (.pure (.ret (.promise 1))))), (.finallyRejected (some (.pure (.ret (.promise 1))))), 2⟩⟩,
        ⟨1, ⟨(.constRet v), (.val .undef), 3⟩⟩,
        ⟨3, ⟨(.resolveOf 2), (.rejectOf 2), 4⟩⟩]⟩ : St) := by
      simp [allOp, anyOp, allocCell, allocP, staticResolve, staticReject, thenOp,
        runHandlers, getP, setP, getCell, setCell, List.enum, List.enumFrom,
        tick, runJob, runCB, runFin, reject, resolve, runCalls, CB.callable,
        finallyOp, catchOp, resolve_settled, reject_settled]
    have hT : (finallyOp 0 (some (.pure (.ret (.promise 1)))) (⟨[⟨.fulfilled, v, []⟩, ⟨.pending, .undef, []⟩], [], [], []⟩ : St)).1 = 2 := by
      simp [finallyOp, thenOp, allocP, getP, setP, runHandlers]
    have hrun : run k
         (⟨[⟨.fulfilled, v, []⟩,
        ⟨.rejected, e, []⟩,
        ⟨.rejected, e, []⟩,
        ⟨.rejected, e, []⟩,
        ⟨.fulfilled, .undef, []⟩],
        [],
        [],
        [⟨0, ⟨(.finallyFulfilled (some (.pure (.ret (.promise 1))))), (.finallyRejected (some (.pure (.ret (.promise 1))))), 2⟩⟩,
        ⟨1, ⟨(.constRet v), (.val .undef), 3⟩⟩,
        ⟨3, ⟨(.resolveOf 2), (.rejectOf 2), 4⟩⟩]⟩ : St) =
         (⟨[⟨.fulfilled, v, []⟩,
        ⟨.rejected, e, []⟩,
        ⟨.rejected, e, []⟩,
        ⟨.rejected, e, []⟩,
        ⟨.fulfilled, .undef, []⟩],
        [],
        [],
        [⟨0, ⟨(.finallyFulfilled (some (.pure (.ret (.promise 1))))), (.finallyRejected (some (.pure (.ret (.promise 1))))), 2⟩⟩,
        ⟨1, ⟨(.constRet v), (.val .undef), 3⟩⟩,
        ⟨3, ⟨(.resolveOf 2), (.rejectOf 2), 4⟩⟩]⟩ : St) := run_nil rfl k
    rw [hT, k1, k2, k3, k4, k5, hrun]
    exact ⟨rfl, rfl⟩

theorem c9_finally_passthrough_witness :
    isPlain (.str "val") = true ∧
    (getP (run 0 (tick (tick (tick (finallyOp 0 (some (.pure (.ret (.str "fin"))))
        (⟨[⟨.fulfilled, .str "val", []⟩], [], [], []⟩ : St)).2))))
      (finallyOp 0 (some (.pure (.ret (.str "fin"))))
        (⟨[⟨.fulfilled, .str "val", []⟩], [], [], []⟩ : St)).1).value = .str "val" := by
  exact ⟨rfl, (c9_finally_passthrough.1 (.str "val") (.str "fin") rfl rfl 0).2⟩
namespace Draft2

/-!  The second `MyPromise` class definition in the file (promise.ts
lines 360-746) re-embedded on the same state types.  Each definition
below is translated from the corresponding member of the second draft,
independently of the first embedding above; the theorem for the
equivalence claim compares the two embeddings definition by
definition. -/

/-- `runHandlers` (promise.ts lines 534-596, minus the job bodies): if
still pending do nothing; otherwise swap the handler queue for an empty
one and enqueue one microtask job per drained handler, in order.  The
job bodies themselves are `runJob` below. -/
def runHandlers (self : Nat) (st : St) : St :=
  let p := getP st self
  if p.state = .pending then st
  else
    let st := setP st self { p with handlers := [] }
    { st with queue := st.queue ++ p.handlers.map (fun h => ⟨self, h⟩) }

/-- The `reject` closure (promise.ts lines 456-466): a no-op unless
pending; otherwise transition to `rejected`, store the reason, and run
the handlers. -/
def reject (self : Nat) (reason : JSValue) (st : St) : St :=
  if (getP st self).state ≠ .pending then st
  else
    runHandlers self
      (setP st self { getP st self with state := .rejected, value := reason })

/-- `then` (promise.ts lines 479-500): create a new pending promise;
its executor synchronously pushes a handler record carrying the two
transforms and the new promise's resolving functions, then calls
`runHandlers`.  Returns the new promise's id. -/
def thenOp (src : Nat) (onf onr : CB) (st : St) : Nat × St :=
  let (d, st) := allocP st
  let p := getP st src
  let st := setP st src { p with handlers := p.handlers ++ [⟨onf, onr, d⟩] }
  (d, runHandlers src st)

mutual

/-- The `resolve` closure (promise.ts lines 378-454), the Resolution
Procedure: no-op unless pending; self-resolution rejects with a
`TypeError`; another `MyPromise` is adopted via `value.then(resolve,
reject)`; an object whose `then` read throws rejects with that error;
an object with a callable `then` has that `then` invoked with the two
guarded callbacks (`runCalls`, sharing one `called` flag) and, if the
invocation throws with neither callback having fired, rejects with the
thrown error; any other value fulfills the promise with it. -/
def resolve (self : Nat) (v : JSValue) (st : St) : St :=
  if (getP st self).state ≠ .pending then st
  else
    match v with
    | .promise q =>
      if q = self then
        reject self (.typeError "A promise cannot be resolved with itself.") st
      else
        (thenOp q (.resolveOf self) (.rejectOf self) st).2
    | .thenThrow e => reject self e st
    | .thenable calls thr =>
      let (called, st') := runCalls self calls false st
      match thr with
      | some e => if called then st' else reject self e st'
      | none => st'
    | u =>
      runHandlers self
        (setP st self { getP st self with state := .fulfilled, value := u })

/-- The two guarded callbacks handed to a foreign `then` (promise.ts
lines 425-438), folded over the trace of invocations the foreign `then`
performs: each invocation checks and sets the shared `called` flag, the
first one reaching the adopting promise's `resolve` or `reject`.
Returns the final flag together with the state. -/
def runCalls (self : Nat) (calls : CallList) (called : Bool)
    (st : St) : Bool × St :=
  match calls with
  | .nil => (called, st)
  | .cons isRes x rest =>
    if called then runCalls self rest called st
    else
      let st' := if isRes then resolve self x st else reject self x st
      runCalls self rest true st'

end

/-- `MyPromise.resolve` (promise.ts lines 598-611): identity on an
existing instance, otherwise a new promise whose executor immediately
calls `resolve` with the value. -/
def staticResolve (v : JSValue) (st : St) : Nat × St :=
  match v with
  | .promise q => (q, st)
  | _ =>
    let (p, st) := allocP st
    (p, resolve p v st)

/-- `MyPromise.reject` (promise.ts lines 613-617): always a fresh
promise, immediately rejected. -/
def staticReject (r : JSValue) (st : St) : Nat × St :=
  let (p, st) := allocP st
  (p, reject p r st)

/-- Invoke a zero-argument `onFinally` callback. -/
def runFin (f : FinCB) (st : St) : FnRes × St :=
  match f with
  | .pure r => (r, st)
  | .settledTick cell total target =>
    let c := getCell st cell
    let c' : Cell := ⟨c.arr, c.count + 1⟩
    let st := setCell st cell c'
    let st :=
      if c'.count = total then
        resolve target (.arr (c'.arr.map (fun o => o.getD .undef))) st
      else st
    (.ret .undef, st)

/-- Invoke a function-valued handler with one argument.  Each branch is
the body of the corresponding closure in the source; the `.val` branch
is unreachable in the semantics because every call site is guarded by
the `typeof` check. -/
def runCB (cb : CB) (arg : JSValue) (st : St) : FnRes × St :=
  match cb with
  | .val _ => (.ret .undef, st)
  | .fn f => (f arg, st)
  | .resolveOf p => (.ret .undef, resolve p arg st)
  | .rejectOf p => (.ret .undef, reject p arg st)
  | .constRet v => (.ret v, st)
  | .constThrow r => (.thrown r, st)
  | .finallyFulfilled onf =>
    match onf with
    | none => (.ret arg, st)
    | some f =>
      match runFin f st with
      | (.thrown e, st) => (.thrown e, st)
      | (.ret r, st) =>
        let (q, st) := staticResolve r st
        let (d, st) := thenOp q (.constRet arg) (.val .undef) st
        (.ret (.promise d), st)
  | .finallyRejected onf =>
    let step : FnRes × St :=
      match onf with
      | none => (.ret .undef, st)
      | some f => runFin f st
    match step with
    | (.thrown e, st) => (.thrown e, st)
    | (.ret r, st) =>
      let (q, st) := staticResolve r st
      let (d, st) := thenOp q (.constThrow arg) (.val .undef) st
      (.ret (.promise d), st)
  | .allF cell idx total target =>
    let c := getCell st cell
    let c' : Cell := ⟨c.arr.set idx (some arg), c.count + 1⟩
    let st := setCell st cell c'
    let st :=
      if c'.count = total then
        resolve target (.arr (c'.arr.map (fun o => o.getD .undef))) st
      else st
    (.ret .undef, st)
  | .allCatch target => (.ret .undef, reject target arg st)
  | .anyCatch cell idx total target =>
    let c := getCell st cell
    let c' : Cell := ⟨c.arr.set idx (some arg), c.count + 1⟩
    let st := setCell st cell c'
    let st :=
      if c'.count = total then
        reject target
          (.aggErr (c'.arr.map (fun o => o.getD .undef))
            "All promises rejected.") st
      else st
    (.ret .undef, st)
  | .settledF cell idx =>
    let c := getCell st cell
    let st := setCell st cell ⟨c.arr.set idx (some (.statusObj "fulfilled" arg)), c.count⟩
    (.ret .undef, st)
  | .settledR cell idx =>
    let c := getCell st cell
    let st := setCell st cell ⟨c.arr.set idx (some (.statusObj "rejected" arg)), c.count⟩
    (.ret .undef, st)

/-- The body of the `queueMicrotask` callback in `runHandlers`
(promise.ts lines 553-591): re-read the owning promise's state; on the
fulfilled branch run (or pass through) `onfulfilled` and report into
the downstream resolving functions; then re-check, and on the rejected
branch do the same with `onrejected`.  The dispatched job is recorded
in the ghost log first. -/
def runJob (j : Job) (st : St) : St :=
  let st := { st with log := st.log ++ [j] }
  let p := getP st j.self
  let st1 :=
    if p.state = .fulfilled then
      if j.h.onfulfilled.callable then
        match runCB j.h.onfulfilled p.value st with
        | (.ret r, st') => resolve j.h.dst r st'
        | (.thrown e, st') => reject j.h.dst e st'
      else resolve j.h.dst p.value st
    else st
  let p1 := getP st1 j.self
  if p1.state = .rejected then
    if j.h.onrejected.callable then
      match runCB j.h.onrejected p1.value st1 with
      | (.ret r, st2) => resolve j.h.dst r st2
      | (.thrown e, st2) => reject j.h.dst e st2
    else reject j.h.dst p1.value st1
  else st1

/-- One scheduler step: dequeue and run the front microtask, if any. -/
def tick (st : St) : St :=
  match st.queue with
  | [] => st
  | j :: rest => runJob j { st with queue := rest }

/-- `catch` (promise.ts lines 502-512): `this.then(undefined, onrejected)`. -/
def catchOp (src : Nat) (onr : CB) (st : St) : Nat × St :=
  thenOp src (.val .undef) onr st

/-- `finally` (promise.ts lines 514-532):
`this.then(passThroughFulfilled, passThroughRejected)`. -/
def finallyOp (src : Nat) (onf : Option FinCB) (st : St) : Nat × St :=
  thenOp src (.finallyFulfilled onf) (.finallyRejected onf) st

/-- `MyPromise.all` (promise.ts lines 622-655). -/
def allOp (values : List JSValue) (st : St) : Nat × St :=
  let total := values.length
  let (cell, st) := allocCell st total
  let (target, st) := allocP st
  if total = 0 then (target, resolve target (.arr []) st)
  else
    (target,
     (values.enum.foldl (fun st vi =>
        let (p, st) := staticResolve vi.2 st
        let (d1, st) := thenOp p (.allF cell vi.1 total target) (.val .undef) st
        (thenOp d1 (.val .undef) (.allCatch target) st).2) st))

/-- `MyPromise.allSettled` (promise.ts lines 657-697). -/
def allSettledOp (values : List JSValue) (st : St) : Nat × St :=
  let total := values.length
  let (cell, st) := allocCell st total
  let (target, st) := allocP st
  if total = 0 then (target, resolve target (.arr []) st)
  else
    (target,
     (values.enum.foldl (fun st vi =>
        let (p, st) := staticResolve vi.2 st
        let (d1, st) := thenOp p (.settledF cell vi.1) (.val .undef) st
        let (d2, st) := thenOp d1 (.val .undef) (.settledR cell vi.1) st
        (finallyOp d2 (some (.settledTick cell total target)) st).2) st))

/-- `MyPromise.race` (promise.ts lines 699-710). -/
def raceOp (values : List JSValue) (st : St) : Nat × St :=
  let (target, st) := allocP st
  (target,
   values.foldl (fun st v =>
      let (p, st) := staticResolve v st
      (thenOp p (.resolveOf target) (.rejectOf target) st).2) st)

/-- `MyPromise.any` (promise.ts lines 712-745). -/
def anyOp (values : List JSValue) (st : St) : Nat × St :=
  let total := values.length
  let (cell, st) := allocCell st total
  let (target, st) := allocP st
  if total = 0 then
    (target, reject target (.aggErr [] "Values is empty.") st)
  else
    (target,
     (values.enum.foldl (fun st vi =>
        let (p, st) := staticResolve vi.2 st
        let (d1, st) := thenOp p (.resolveOf target) (.val .undef) st
        (thenOp d1 (.val .undef) (.anyCatch cell vi.1 total target) st).2) st))
end Draft2

/-- Handler draining is identical in both drafts. -/
theorem d2_runHandlers_eq : Draft2.runHandlers = runHandlers := rfl

/-- The `reject` closures of the two drafts agree. -/
theorem d2_reject_eq : Draft2.reject = reject := by
  funext self reason st
  simp [Draft2.reject, reject, d2_runHandlers_eq]

/-- The `then` members of the two drafts agree. -/
theorem d2_thenOp_eq : Draft2.thenOp = thenOp := by
  funext src onf onr st
  simp [Draft2.thenOp, thenOp, d2_runHandlers_eq]

/-- Size-bounded mutual agreement of the two drafts' Resolution
Procedures and guarded-callback folds. -/
theorem d2_resolve_runCalls_eq (n : Nat) :
    (∀ self v st, sizeOf v < n → Draft2.resolve self v st = resolve self v st) ∧
    (∀ (calls : CallList) self called st, sizeOf calls < n →
      Draft2.runCalls self calls called st = runCalls self calls called st) := by
  induction n with
  | zero => exact ⟨fun self v st h => absurd h (by omega),
      fun c self b st h => absurd h (by omega)⟩
  | succ n ih =>
    constructor
    · intro self v st hsz
      cases v with
      | thenable calls thr =>
        have hc : sizeOf calls < n := by simp at hsz; omega
        have hrc := ih.2 calls self false st hc
        cases thr <;> simp [Draft2.resolve, resolve, hrc, d2_reject_eq]
      | promise q => simp [Draft2.resolve, resolve, d2_reject_eq, d2_thenOp_eq]
      | thenThrow e => simp [Draft2.resolve, resolve, d2_reject_eq]
      | undef => simp [Draft2.resolve, resolve, d2_runHandlers_eq]
      | null => simp [Draft2.resolve, resolve, d2_runHandlers_eq]
      | bool b => simp [Draft2.resolve, resolve, d2_runHandlers_eq]
      | num m => simp [Draft2.resolve, resolve, d2_runHandlers_eq]
      | str s => simp [Draft2.resolve, resolve, d2_runHandlers_eq]
      | plainObj i => simp [Draft2.resolve, resolve, d2_runHandlers_eq]
      | arr vs => simp [Draft2.resolve, resolve, d2_runHandlers_eq]
      | typeError m => simp [Draft2.resolve, resolve, d2_runHandlers_eq]
      | aggErr rs m => simp [Draft2.resolve, resolve, d2_runHandlers_eq]
      | statusObj s w => simp [Draft2.resolve, resolve, d2_runHandlers_eq]
    · intro calls self called st hsz
      match calls, called with
      | .nil, b => simp [Draft2.runCalls, runCalls]
      | .cons isRes x rest, true =>
        have hrest : sizeOf rest < n := by simp at hsz; omega
        have h2 := fun s => ih.2 rest self true s hrest
        simp [Draft2.runCalls, runCalls, h2]
      | .cons isRes x rest, false =>
        have hrest : sizeOf rest < n := by simp at hsz; omega
        have hx : sizeOf x < n := by simp at hsz; omega
        have h1 := ih.1 self x st hx
        have h2 := fun s => ih.2 rest self true s hrest
        cases isRes <;> simp [Draft2.runCalls, runCalls, h1, h2, d2_reject_eq]

/-- The Resolution Procedures of the two drafts agree. -/
theorem d2_resolve_eq : Draft2.resolve = resolve := by
  funext self v st
  exact (d2_resolve_runCalls_eq (sizeOf v + 1)).1 self v st (by omega)

/-- The guarded-callback folds of the two drafts agree. -/
theorem d2_runCalls_eq : Draft2.runCalls = runCalls := by
  funext self calls called st
  exact (d2_resolve_runCalls_eq (sizeOf calls + 1)).2 calls self called st
    (by omega)

/-- The static `resolve` members of the two drafts agree. -/
theorem d2_staticResolve_eq : Draft2.staticResolve = staticResolve := by
  funext v st
  cases v <;> simp [Draft2.staticResolve, staticResolve, d2_resolve_eq]

/-- The static `reject` members of the two drafts agree. -/
theorem d2_staticReject_eq : Draft2.staticReject = staticReject := by
  funext r st
  simp [Draft2.staticReject, staticReject, d2_reject_eq]

/-- The `onFinally` invocations of the two drafts agree. -/
theorem d2_runFin_eq : Draft2.runFin = runFin := by
  funext f st
  cases f <;> simp [Draft2.runFin, runFin, d2_resolve_eq]

/-- The handler-invocation bodies of the two drafts agree. -/
theorem d2_runCB_eq : Draft2.runCB = runCB := by
  funext cb arg st
  cases cb <;> simp [Draft2.runCB, runCB, d2_resolve_eq, d2_reject_eq,
    d2_runFin_eq, d2_staticResolve_eq, d2_thenOp_eq]

/-- The microtask job bodies of the two drafts agree. -/
theorem d2_runJob_eq : Draft2.runJob = runJob := by
  funext j st
  simp [Draft2.runJob, runJob, d2_runCB_eq, d2_resolve_eq, d2_reject_eq]

/-- The scheduler steps of the two drafts agree. -/
theorem d2_tick_eq : Draft2.tick = tick := by
  funext st
  simp [Draft2.tick, tick, d2_runJob_eq]

/-- The `catch` members of the two drafts agree. -/
theorem d2_catchOp_eq : Draft2.catchOp = catchOp := by
  funext src onr st
  simp [Draft2.catchOp, catchOp, d2_thenOp_eq]

/-- The `finally` members of the two drafts agree. -/
theorem d2_finallyOp_eq : Draft2.finallyOp = finallyOp := by
  funext src onf st
  simp [Draft2.finallyOp, finallyOp, d2_thenOp_eq]

/-- The `all` combinators of the two drafts agree. -/
theorem d2_allOp_eq : Draft2.allOp = allOp := by
  funext values st
  simp [Draft2.allOp, allOp, d2_staticResolve_eq, d2_thenOp_eq,
    d2_resolve_eq, d2_reject_eq]

/-- The `allSettled` combinators of the two drafts agree. -/
theorem d2_allSettledOp_eq : Draft2.allSettledOp = allSettledOp := by
  funext values st
  simp [Draft2.allSettledOp, allSettledOp, d2_staticResolve_eq,
    d2_thenOp_eq, d2_finallyOp_eq, d2_resolve_eq, d2_reject_eq]

/-- The `race` combinators of the two drafts agree. -/
theorem d2_raceOp_eq : Draft2.raceOp = raceOp := by
  funext values st
  simp [Draft2.raceOp, raceOp, d2_staticResolve_eq, d2_thenOp_eq]

/-- The `any` combinators of the two drafts agree. -/
theorem d2_anyOp_eq : Draft2.anyOp = anyOp := by
  funext values st
  simp [Draft2.anyOp, anyOp, d2_staticResolve_eq, d2_thenOp_eq,
    d2_reject_eq]

/-- C10: the two `MyPromise` class definitions (promise.ts lines 42-315
and 360-746) are behaviorally equivalent: every operation of the second
draft — the resolving functions, handler scheduling, `then`, `catch`,
`finally`, the microtask job bodies, the scheduler step, and the static
resolve/reject/all/allSettled/race/any combinators — equals the
corresponding operation of the first draft as a function, so the two
drafts produce identical settlement states, results, and scheduling on
every input and either may be taken as authoritative. -/
theorem c10_draft_equivalence :
    Draft2.runHandlers = runHandlers ∧
    Draft2.reject = reject ∧
    Draft2.thenOp = thenOp ∧
    Draft2.resolve = resolve ∧
    Draft2.runCalls = runCalls ∧
    Draft2.staticResolve = staticResolve ∧
    Draft2.staticReject = staticReject ∧
    Draft2.runFin = runFin ∧
    Draft2.runCB = runCB ∧
    Draft2.runJob = runJob ∧
    Draft2.tick = tick ∧
    Draft2.catchOp = catchOp ∧
    Draft2.finallyOp = finallyOp ∧
    Draft2.allOp = allOp ∧
    Draft2.allSettledOp = allSettledOp ∧
    Draft2.raceOp = raceOp ∧
    Draft2.anyOp = anyOp :=
  ⟨d2_runHandlers_eq, d2_reject_eq, d2_thenOp_eq, d2_resolve_eq,
   d2_runCalls_eq, d2_staticResolve_eq, d2_staticReject_eq, d2_runFin_eq,
   d2_runCB_eq, d2_runJob_eq, d2_tick_eq, d2_catchOp_eq, d2_finallyOp_eq,
   d2_allOp_eq, d2_allSettledOp_eq, d2_raceOp_eq, d2_anyOp_eq⟩
